import Mathlib

/-!
Verification of the cooked-mode line editor in `src/host/readDataCooked.cpp`
(class `COOKED_READ_DATA`).

The editor state (edit buffer, caret, dirty flag, geometry distances, popup
stack, command history) and the input handlers (`_handleChar`, `_handleVkey`,
the four popup handlers, `_readCharInputLoop`, `_flushBuffer`,
`_handlePostCharInputLoop`) are embedded shallowly below.  UTF-16 code units
are modelled as `Nat`, buffers as `List Nat`.  External collaborators that are
not part of the translated source (the text buffer's grapheme tables and
delimiter classification, the command history store, the alias table, the
`Consume` encoder, the screen writer) are modelled from the specification; each
such definition carries a doc comment saying so.
-/

/-- A UTF-16 code unit (`wchar_t` in the source). -/
abbrev WChar := Nat

/-- Modelled from the spec: the three delimiter classes returned by
`delim_class(cp)` ("Space", "Word", "Other"). The source's `DelimiterClass`
lives in the text-buffer component, which is not among the translated files. -/
inductive DelimClass
  | Space
  | Word
  | Other
deriving DecidableEq

/-- Modelled from the spec: `delim_class(cp)` — Space is U+0020 only in the
legacy mapping; Word is "identifier-like" (letters/digits/underscore and
anything above the ASCII punctuation band); Other is everything else. -/
def DelimiterClass (c : WChar) : DelimClass :=
  if c = 32 then .Space
  else if (48 ≤ c ∧ c ≤ 57) ∨ (65 ≤ c ∧ c ≤ 90) ∨ (97 ≤ c ∧ c ≤ 122) ∨ c = 95 ∨ 127 < c then .Word
  else .Other

/-- Modelled from the spec: whether a code unit extends the preceding grapheme
cluster ("one grapheme may span multiple code units").  The combining
diacritical marks U+0300–U+036F stand in for the host's Unicode tables. -/
def isExtend (c : WChar) : Bool :=
  decide (768 ≤ c ∧ c ≤ 879)

/-- Forward scan over extending code units; fuel-driven so it reduces by
`rfl`.  Used by `graphemeNext`. -/
def skipExtendFwd (text : List WChar) : Nat → Nat → Nat
  | 0, j => j
  | fuel + 1, j =>
    if j < text.length ∧ isExtend (text.getD j 0) then skipExtendFwd text fuel (j + 1) else j

/-- Modelled from the spec: `grapheme_next(text, i) → j`, the smallest `j > i`
such that `[i, j)` is one extended grapheme cluster (or `j = len` if none).
Stands in for `TextBuffer::GraphemeNext`, which is not among the translated
files. -/
def graphemeNext (text : List WChar) (i : Nat) : Nat :=
  if i < text.length then skipExtendFwd text text.length (i + 1) else text.length

/-- Backward scan over extending code units; used by `graphemePrev`. -/
def skipExtendBack (text : List WChar) : Nat → Nat
  | 0 => 0
  | j + 1 => if isExtend (text.getD (j + 1) 0) then skipExtendBack text j else j + 1

/-- Modelled from the spec: `grapheme_prev(text, i) → j`, the largest `j < i`
that starts a grapheme cluster, `0` if `i = 0`.  Stands in for
`TextBuffer::GraphemePrev`. -/
def graphemePrev (text : List WChar) (i : Nat) : Nat :=
  if i = 0 then 0 else skipExtendBack text (i - 1)

/-- Modelled from the spec: position `i` sits on a grapheme boundary of
`text` — it is the start, the end, or a code unit that does not extend the
preceding cluster. -/
def isGraphemeBoundary (text : List WChar) (i : Nat) : Bool :=
  i == 0 || i == text.length || !isExtend (text.getD i 0)

/-- The loop `while (position != 0 && chars[position] == L' ') --position;`
of `_wordPrev`. -/
def skipSpaceBack (chars : List WChar) : Nat → Nat
  | 0 => 0
  | p + 1 => if chars.getD (p + 1) 0 = 32 then skipSpaceBack chars p else p + 1

/-- The loop `while (position != 0 && DelimiterClass(chars[position - 1]) == dc) --position;`
of `_wordPrev`. -/
def skipClassBack (chars : List WChar) (dc : DelimClass) : Nat → Nat
  | 0 => 0
  | p + 1 => if DelimiterClass (chars.getD p 0) = dc then skipClassBack chars dc p else p + 1

/-- Source: `COOKED_READ_DATA::_wordPrev`: the classic Windows word-wise backward
motion — step back one position, skip any run of spaces, then skip the run of
the delimiter class found there. -/
def _wordPrev (chars : List WChar) (position : Nat) : Nat :=
  if position = 0 then 0
  else
    let p := skipSpaceBack chars (position - 1)
    skipClassBack chars (DelimiterClass (chars.getD p 0)) p

/-- The loop `while (position != chars.size() && dc == DelimiterClass(chars[position])) ++position;`
of `_wordNext`; fuel-driven so it reduces by `rfl`. -/
def skipClassFwd (chars : List WChar) (dc : DelimClass) : Nat → Nat → Nat
  | 0, position => position
  | fuel + 1, position =>
    if position < chars.length ∧ DelimiterClass (chars.getD position 0) = dc then
      skipClassFwd chars dc fuel (position + 1)
    else position

/-- The loop `while (position != chars.size() && chars[position] == L' ') ++position;`
of `_wordNext`. -/
def skipSpaceFwd (chars : List WChar) : Nat → Nat → Nat
  | 0, position => position
  | fuel + 1, position =>
    if position < chars.length ∧ chars.getD position 0 = 32 then
      skipSpaceFwd chars fuel (position + 1)
    else position

/-- Source: `COOKED_READ_DATA::_wordNext`: step forward one position, skip the run of
the delimiter class to the left of the new position, then skip trailing
spaces. -/
def _wordNext (chars : List WChar) (position : Nat) : Nat :=
  if position < chars.length then
    let p := position + 1
    let dc := DelimiterClass (chars.getD (p - 1) 0)
    let p := skipClassFwd chars dc chars.length p
    skipSpaceFwd chars chars.length p
  else position

/-- Source: `UNICODE_CARRIAGERETURN`. -/
def UNICODE_CARRIAGERETURN : WChar := 13

/-- Source: `UNICODE_LINEFEED`. -/
def UNICODE_LINEFEED : WChar := 10

/-- Source: `UNICODE_BACKSPACE`. -/
def UNICODE_BACKSPACE : WChar := 8

/-- Modelled from the spec: `EXTKEY_ERASE_PREV_WORD`, the extended code the
input layer synthesizes for Ctrl+Backspace (the DEL code unit); the defining
header is not among the translated files. -/
def EXTKEY_ERASE_PREV_WORD : WChar := 127

/-- Win32 virtual-key and modifier constants used by the handlers. -/
def VK_ESCAPE : Nat := 0x1B

def VK_HOME : Nat := 0x24

def VK_END : Nat := 0x23

def VK_LEFT : Nat := 0x25

def VK_UP : Nat := 0x26

def VK_RIGHT : Nat := 0x27

def VK_DOWN : Nat := 0x28

def VK_PRIOR : Nat := 0x21

def VK_NEXT : Nat := 0x22

def VK_INSERT : Nat := 0x2D

def VK_DELETE : Nat := 0x2E

def VK_F1 : Nat := 0x70

def VK_F2 : Nat := 0x71

def VK_F3 : Nat := 0x72

def VK_F4 : Nat := 0x73

def VK_F5 : Nat := 0x74

def VK_F6 : Nat := 0x75

def VK_F7 : Nat := 0x76

def VK_F8 : Nat := 0x77

def VK_F9 : Nat := 0x78

def VK_F10 : Nat := 0x79

def LEFT_CTRL_PRESSED : Nat := 0x8

def RIGHT_CTRL_PRESSED : Nat := 0x4

def LEFT_ALT_PRESSED : Nat := 0x2

def RIGHT_ALT_PRESSED : Nat := 0x1

def SHIFT_PRESSED : Nat := 0x10

/-- Source: `INT_MAX`, used by `VK_END` in the command-list popup and by
`RetrieveNth(INT_MAX)`. -/
def INT_MAX : Int := 2147483647

/-- Source: `til::CoordTypeMax`. -/
def CoordTypeMax : Int := 2147483647

/-- Source: `CommandNumberMaxInputLength` — the command-number popup accepts at most
five digits (value taken from the spec's data model; the header defining it is
not among the translated files). -/
def CommandNumberMaxInputLength : Nat := 5

/-- Source: `integerLog10` from the top of `readDataCooked.cpp`. -/
def integerLog10 (v : Nat) : Nat :=
  if v ≥ 1000000000 then 9
  else if v ≥ 100000000 then 8
  else if v ≥ 10000000 then 7
  else if v ≥ 1000000 then 6
  else if v ≥ 100000 then 5
  else if v ≥ 10000 then 4
  else if v ≥ 1000 then 3
  else if v ≥ 100 then 2
  else if v ≥ 10 then 1
  else 0

/-- Modelled from the spec: the external `CommandHistory` store ("indexed by
client process"), reduced to the data the editor consumes: the command list
(index 0 is the oldest) and the `LastDisplayed` cursor.  `history.cpp` is not
among the translated files. -/
structure CommandHistoryModel where
  commands : List (List WChar)
  lastDisplayed : Int
deriving DecidableEq

instance : Inhabited CommandHistoryModel := ⟨⟨[], 0⟩⟩

/-- Modelled from the spec: `count() → N`. -/
def CommandHistoryModel.numberOfCommands (h : CommandHistoryModel) : Int :=
  h.commands.length

/-- Modelled from the spec: `retrieve_nth(i) → text` with `i = INT_MAX`
meaning "last"; the index is clamped into range and becomes the new
`last_displayed`. -/
def CommandHistoryModel.retrieveNth (h : CommandHistoryModel) (i : Int) :
    List WChar × CommandHistoryModel :=
  let j := max 0 (min i (h.numberOfCommands - 1))
  (h.commands.getD j.toNat [], { h with lastDisplayed := j })

/-- Modelled from the spec: `last_command() → text`. -/
def CommandHistoryModel.getLastCommand (h : CommandHistoryModel) : List WChar :=
  h.commands.getLast?.getD []

/-- Modelled from the spec: `at_first()`. -/
def CommandHistoryModel.atFirstCommand (h : CommandHistoryModel) : Bool :=
  decide (h.lastDisplayed ≤ 0)

/-- Modelled from the spec: `at_last()`. -/
def CommandHistoryModel.atLastCommand (h : CommandHistoryModel) : Bool :=
  decide (h.numberOfCommands - 1 ≤ h.lastDisplayed)

/-- Modelled from the spec: `retrieve(direction) → text` moving the internal
cursor one step backward (`previous = true`) or forward. -/
def CommandHistoryModel.retrieve (h : CommandHistoryModel) (previous : Bool) :
    List WChar × CommandHistoryModel :=
  h.retrieveNth (if previous then h.lastDisplayed - 1 else h.lastDisplayed + 1)

/-- Modelled from the spec: `remove(i)`. -/
def CommandHistoryModel.remove (h : CommandHistoryModel) (i : Int) : CommandHistoryModel :=
  { h with commands := h.commands.eraseIdx i.toNat }

/-- Modelled from the spec: `swap(i, j)`. -/
def CommandHistoryModel.swap (h : CommandHistoryModel) (i j : Int) : CommandHistoryModel :=
  if 0 ≤ i ∧ i < h.numberOfCommands ∧ 0 ≤ j ∧ j < h.numberOfCommands then
    let ci := h.commands.getD i.toNat []
    let cj := h.commands.getD j.toNat []
    { h with commands := (h.commands.set i.toNat cj).set j.toNat ci }
  else h

/-- Modelled from the spec: `clear()` (`CommandHistory::Empty`). -/
def CommandHistoryModel.emptied (_h : CommandHistoryModel) : CommandHistoryModel :=
  ⟨[], 0⟩

/-- Modelled from the spec: `append(text, dedup)` (`CommandHistory::Add`). -/
def CommandHistoryModel.add (h : CommandHistoryModel) (text : List WChar) (dedup : Bool) :
    CommandHistoryModel :=
  if dedup ∧ h.commands.getLast? = some text then h
  else { h with commands := h.commands ++ [text] }

/-- Modelled from the spec: `find_matching(prefix, start, &out_index, opts) → bool`
(`CommandHistory::FindMatchingCommand`): the index of a command the given text
is a prefix of, if any. -/
def CommandHistoryModel.findMatchingCommand (h : CommandHistoryModel) (pfx : List WChar)
    (_start : Int) : Option Int :=
  (h.commands.findIdx? (fun c => pfx.isPrefixOf c)).map Int.ofNat

/-- The four popup kinds of `PopupKind`. -/
inductive PopupKind
  | CopyToChar
  | CopyFromChar
  | CommandNumber
  | CommandList
deriving DecidableEq

/-- One entry of the `_popups` stack: the kind plus the kind-specific payload
(the command-number digit buffer, the command-list cursor state) and the
content height the push computed from the viewport. -/
structure Popup where
  kind : PopupKind
  /-- Source: `commandNumber.buffer` contents (the accumulated digits; `bufferSize`
  is its length). -/
  cnDigits : List WChar
  /-- Source: `commandList.selected`. -/
  clSelected : Int
  /-- Source: `commandList.top`. -/
  clTop : Int
  /-- Source: `commandList.dirtyHeight`. -/
  clDirtyHeight : Int
  /-- Source: `contentRect.height()`. -/
  contentHeight : Int
deriving DecidableEq

/-- The environment of external collaborators, all modelled from the spec's
interface contracts (their implementations are not among the translated
files):
* `writeCharsRet` — the cell count `_writeChars` derives from
  `WriteCharsLegacy` and the cursor movement ("the returned count is
  `(Δrow + scrolled)·W + Δcol`", a cell count);
* `viewportSize` — `viewport.Dimensions()` of the screen buffer;
* `popupPushFails` — whether backup/draw inside `_popupPush` throws
  ("failure during push");
* `aliasMatch` — `match_and_copy(input, exeName, &line_count)`; `none` when no
  alias matches, otherwise the expansion and its line count;
* `consumeRet` — how many code units `InputBuffer::Consume` takes from the
  front of its source ("saturates at client buffer size"). -/
structure Env where
  writeCharsRet : List WChar → Nat
  viewportSize : Int × Int
  popupPushFails : PopupKind → Bool
  aliasMatch : List WChar → List WChar → Option (List WChar × Nat)
  consumeRet : Bool → List WChar → Nat

/-- The mutable state of one `COOKED_READ_DATA` instance, together with the
per-read configuration (`_ctrlWakeupMask`, the `ENABLE_PROCESSED_INPUT` /
`ENABLE_ECHO_INPUT` bits of `_pInputBuffer->InputMode`, `_exeName`, the global
`CONSOLE_HISTORY_NODUP` flag) and the pending-input slots of
`INPUT_READ_HANDLE_DATA`. -/
structure State where
  ctrlWakeupMask : Nat
  processedInput : Bool
  echoInput : Bool
  exeName : List WChar
  histNoDup : Bool
  buffer : List WChar
  bufferCursor : Nat
  bufferDirty : Bool
  insertMode : Bool
  controlKeyState : Nat
  distanceCursor : Int
  distanceEnd : Int
  popups : List Popup
  history : Option CommandHistoryModel
  pendingInput : Option (List WChar)
  multilinePending : Option (List WChar)
deriving DecidableEq

/-- Source: `std::wstring::insert(pos, 1, c)`. -/
def strInsert (l : List WChar) (pos : Nat) (c : WChar) : List WChar :=
  l.take pos ++ c :: l.drop pos

/-- Source: `std::wstring::erase(pos, count)`. -/
def strErase (l : List WChar) (pos count : Nat) : List WChar :=
  l.take pos ++ l.drop (pos + count)

/-- Source: `std::wstring::replace(pos, count, repl)`. -/
def strReplace (l : List WChar) (pos count : Nat) (repl : List WChar) : List WChar :=
  l.take pos ++ repl ++ l.drop (pos + count)

/-- Index of the first occurrence of `c` in `l`, if any. -/
def scanIdx (c : WChar) : List WChar → Option Nat
  | [] => none
  | x :: xs => if x = c then some 0 else (scanIdx c xs).map (· + 1)

/-- Source: `std::wstring::find(c, pos)`: index of the first occurrence of `c` at or
after `pos`, `none` for `npos`. -/
def findFrom (l : List WChar) (c : WChar) (pos : Nat) : Option Nat :=
  (scanIdx c (l.drop pos)).map (· + pos)

/-- Source: `input.ends_with(suffix)`. -/
def endsWith (l suffix : List WChar) : Bool :=
  l.drop (l.length - suffix.length) == suffix

/-- Modelled from the spec: the digit-buffer parse `std::stoi` performs on
`Enter` in the command-number popup.  The buffer holds only decimal digits;
`std::stoi` of the empty string throws `std::invalid_argument`, so the parse
is partial. -/
def stoiDigits (digits : List WChar) : Option Nat :=
  if digits = [] then none
  else some (digits.foldl (fun acc c => acc * 10 + (c - 48)) 0)

/-- The error a handler can propagate out of the read (the `std::stoi` throw
in `_popupHandleCommandNumberInput`; `Notify` converts it to a failure
NTSTATUS via `NT_CATCH_RETURN`). -/
inductive ReadErr
  | invalidArgument
deriving DecidableEq

/-- Source: `COOKED_READ_DATA::_newlineSuffix`: `"\r\n"` under
`ENABLE_PROCESSED_INPUT`, otherwise `"\r"`. -/
def _newlineSuffix (s : State) : List WChar :=
  if s.processedInput then [13, 10] else [13]

/-- Source: `COOKED_READ_DATA::_markAsDirty`. -/
def _markAsDirty (s : State) : State :=
  { s with bufferDirty := true }

/-- Source: `COOKED_READ_DATA::_flushBuffer`: clamp the cursor into the buffer, bail
out when not dirty, and under `ENABLE_ECHO_INPUT` redraw the line and update
the two cell distances from the anchor.  The screen writes themselves
(`_writeChars`, `_erase`, `_unwindCursorPosition`) act on the text buffer,
which has no representation in this state; only the returned cell counts
(`Env.writeCharsRet`) are observable here. -/
def _flushBuffer (env : Env) (s : State) : State :=
  let s := { s with bufferCursor := min s.bufferCursor s.buffer.length }
  if !s.bufferDirty then s
  else if s.echoInput then
    let distanceBeforeCursor : Int := env.writeCharsRet (s.buffer.take s.bufferCursor)
    let distanceAfterCursor : Int := env.writeCharsRet (s.buffer.drop s.bufferCursor)
    let distanceEnd := distanceBeforeCursor + distanceAfterCursor
    { s with
      distanceCursor := distanceBeforeCursor
      distanceEnd := distanceEnd
      bufferDirty := false }
  else { s with bufferDirty := false }

/-- Source: `COOKED_READ_DATA::_replaceBuffer`. -/
def _replaceBuffer (s : State) (str : List WChar) : State :=
  _markAsDirty { s with buffer := str, bufferCursor := str.length }

/-- Source: `COOKED_READ_DATA::_popupsDone`: dismiss all popups (each restores its
screen backup, which has no representation here). -/
def _popupsDone (s : State) : State :=
  { s with popups := [] }

/-- Replace the topmost popup (the source mutates `_popups.back()` through a
reference). -/
def setBack (s : State) (p : Popup) : State :=
  { s with popups := s.popups.dropLast ++ [p] }

/-- Source: `COOKED_READ_DATA::_popupDrawCommandList`, restricted to its state
effects: clamp `selected`, let `top` follow it lazily, clamp `top`, and
persist `dirtyHeight`.  The row painting acts only on the text buffer. -/
def _popupDrawCommandList (s : State) (popup : Popup) : State :=
  let h := s.history.getD default
  let maxC := h.numberOfCommands
  let height := min popup.contentHeight maxC
  let sel := max 0 (min popup.clSelected (maxC - 1))
  let top :=
    if sel < popup.clTop then sel
    else if popup.clTop + height ≤ sel then sel - height + 1
    else popup.clTop
  let top := max 0 (min top (maxC - height))
  setBack s { popup with clSelected := sel, clTop := top, clDirtyHeight := height }

/-- Source: `COOKED_READ_DATA::_popupPush`: compute the proposed and content size,
abandon the push when the viewport is too small, flush the edit echo, and
append the popup with its kind-specific initial payload.  If the backup or
border drawing fails (`Env.popupPushFails`), the whole stack is unwound via
`_popupsDone`, as in the `catch` block. -/
def _popupPush (env : Env) (s : State) (kind : PopupKind) : State :=
  let viewportWidth := env.viewportSize.1
  let viewportHeight := env.viewportSize.2
  let proposedSize : Int × Int :=
    match kind with
    | .CopyToChar => (26, 1)
    | .CopyFromChar => (28, 1)
    | .CommandNumber => (22 + (CommandNumberMaxInputLength : Int), 1)
    | .CommandList =>
      let h := s.history.getD default
      let commandCount := h.numberOfCommands
      let maxStringLength := h.commands.foldl (fun m c => max m c.length) 0
      let maxStringLength := maxStringLength + integerLog10 commandCount.toNat + 3
      (max 40 (min (maxStringLength : Int) CoordTypeMax), max 10 (min commandCount 20))
  let contentWidth := min proposedSize.1 (viewportWidth - 2)
  let contentHeight := min proposedSize.2 (viewportHeight - 2)
  if contentWidth ≤ 0 ∨ contentHeight ≤ 0 then s
  else
    let base : Popup :=
      { kind := kind, cnDigits := [], clSelected := 0, clTop := 0, clDirtyHeight := 0,
        contentHeight := contentHeight }
    let s := _flushBuffer env s
    if env.popupPushFails kind then _popupsDone s
    else
      match kind with
      | .CommandList =>
        let h := s.history.getD default
        let payload :=
          { base with clSelected := h.lastDisplayed, clTop := h.lastDisplayed - contentHeight / 2 }
        let s := { s with popups := s.popups ++ [payload] }
        _popupDrawCommandList s payload
      | _ => { s with popups := s.popups ++ [base] }

/-- Source: `COOKED_READ_DATA::_handleChar`: ctrl-wakeup early termination, carriage
return, (word-wise) backspace in processed mode, then plain
insertion/replacement.  The second component is the "done" result. -/
def _handleChar (env : Env) (s : State) (wch : WChar) (modifiers : Nat) : State × Bool :=
  if s.ctrlWakeupMask ≠ 0 ∧ wch < 32 ∧ s.ctrlWakeupMask &&& (1 <<< wch) ≠ 0 then
    let s := _flushBuffer env s
    ({ s with
        buffer := strInsert s.buffer s.bufferCursor wch
        bufferCursor := s.bufferCursor + 1
        controlKeyState := modifiers }, true)
  else if wch = UNICODE_CARRIAGERETURN then
    let buf := s.buffer ++ _newlineSuffix s
    (_markAsDirty { s with buffer := buf, bufferCursor := buf.length }, true)
  else if (wch = EXTKEY_ERASE_PREV_WORD ∨ wch = UNICODE_BACKSPACE) ∧ s.processedInput then
    let pos :=
      if wch = EXTKEY_ERASE_PREV_WORD then _wordPrev s.buffer s.bufferCursor
      else graphemePrev s.buffer s.bufferCursor
    (_markAsDirty
      { s with
        buffer := strErase s.buffer pos (s.bufferCursor - pos)
        bufferCursor := pos }, false)
  else
    let buf :=
      if s.insertMode then strInsert s.buffer s.bufferCursor wch
      else
        let nextGraphemeLength := graphemeNext s.buffer s.bufferCursor - s.bufferCursor
        strReplace s.buffer s.bufferCursor nextGraphemeLength [wch]
    (_markAsDirty { s with buffer := buf, bufferCursor := s.bufferCursor + 1 }, false)

/-- The grapheme walk of the `VK_RIGHT`-at-end-of-line history paste: walk
both strings grapheme by grapheme; once past the end of the edit buffer,
report the slice `[cmdBeg, cmdEnd)` of the last command that should be
appended (one grapheme), or `none` if the edit buffer is at least as long.
Fuel-driven so it reduces by `rfl`; `cmd.length + 1` fuel suffices because
`cmdBeg` strictly grows. -/
def rightArrowPaste (cmd buf : List WChar) : Nat → Nat → Nat → Option (Nat × Nat)
  | 0, _, _ => none
  | fuel + 1, cmdBeg, bufferBeg =>
    if cmdBeg < cmd.length then
      let cmdEnd := graphemeNext cmd cmdBeg
      if buf.length ≤ bufferBeg then some (cmdBeg, cmdEnd)
      else rightArrowPaste cmd buf fuel cmdEnd (graphemeNext buf bufferBeg)
    else none

/-- The `ctrlPressed` local of `_handleVkey`:
`WI_IsAnyFlagSet(modifiers, LEFT_CTRL_PRESSED | RIGHT_CTRL_PRESSED)`. -/
def ctrlPressedB (modifiers : Nat) : Bool :=
  modifiers &&& (LEFT_CTRL_PRESSED ||| RIGHT_CTRL_PRESSED) != 0

/-- The `altPressed` local of `_handleVkey`:
`WI_IsAnyFlagSet(modifiers, LEFT_ALT_PRESSED | RIGHT_ALT_PRESSED)`. -/
def altPressedB (modifiers : Nat) : Bool :=
  modifiers &&& (LEFT_ALT_PRESSED ||| RIGHT_ALT_PRESSED) != 0

/-- Source: `COOKED_READ_DATA::_handleVkey`: the editing virtual-key dispatch.  It
returns only a new state — no commit signal. -/
def _handleVkey (env : Env) (s : State) (vkey : Nat) (modifiers : Nat) : State :=
  if vkey = VK_ESCAPE then
    if s.buffer ≠ [] then _markAsDirty { s with buffer := [], bufferCursor := 0 } else s
  else if vkey = VK_HOME then
    if 0 < s.bufferCursor then
      let buf := if ctrlPressedB modifiers then strErase s.buffer 0 s.bufferCursor else s.buffer
      _markAsDirty { s with buffer := buf, bufferCursor := 0 }
    else s
  else if vkey = VK_END then
    if s.bufferCursor < s.buffer.length then
      let buf := if ctrlPressedB modifiers then s.buffer.take s.bufferCursor else s.buffer
      _markAsDirty { s with buffer := buf, bufferCursor := buf.length }
    else s
  else if vkey = VK_LEFT then
    if s.bufferCursor ≠ 0 then
      let c :=
        if ctrlPressedB modifiers then _wordPrev s.buffer s.bufferCursor
        else graphemePrev s.buffer s.bufferCursor
      _markAsDirty { s with bufferCursor := c }
    else s
  else if vkey = VK_F1 ∨ vkey = VK_RIGHT then
    if s.bufferCursor ≠ s.buffer.length then
      let c :=
        if ctrlPressedB modifiers ∧ vkey = VK_RIGHT then _wordNext s.buffer s.bufferCursor
        else graphemeNext s.buffer s.bufferCursor
      _markAsDirty { s with bufferCursor := c }
    else
      match s.history with
      | some h =>
        let cmd := h.getLastCommand
        match rightArrowPaste cmd s.buffer (cmd.length + 1) 0 0 with
        | some (cmdBeg, cmdEnd) =>
          let buf := s.buffer ++ (cmd.drop cmdBeg).take (cmdEnd - cmdBeg)
          _markAsDirty { s with buffer := buf, bufferCursor := buf.length }
        | none => s
      | none => s
  else if vkey = VK_INSERT then
    _markAsDirty { s with insertMode := !s.insertMode }
  else if vkey = VK_DELETE then
    if s.bufferCursor < s.buffer.length then
      _markAsDirty
        { s with
          buffer :=
            strErase s.buffer s.bufferCursor (graphemeNext s.buffer s.bufferCursor - s.bufferCursor) }
    else s
  else if vkey = VK_UP ∨ vkey = VK_F5 then
    match s.history with
    | some h =>
      if !h.atFirstCommand then
        let r := h.retrieve true
        _replaceBuffer { s with history := some r.2 } r.1
      else s
    | none => s
  else if vkey = VK_DOWN then
    match s.history with
    | some h =>
      if !h.atLastCommand then
        let r := h.retrieve false
        _replaceBuffer { s with history := some r.2 } r.1
      else s
    | none => s
  else if vkey = VK_PRIOR then
    match s.history with
    | some h =>
      if !h.atFirstCommand then
        let r := h.retrieveNth 0
        _replaceBuffer { s with history := some r.2 } r.1
      else s
    | none => s
  else if vkey = VK_NEXT then
    match s.history with
    | some h =>
      if !h.atLastCommand then
        let r := h.retrieveNth INT_MAX
        _replaceBuffer { s with history := some r.2 } r.1
      else s
    | none => s
  else if vkey = VK_F2 then
    match s.history with
    | some _ => _popupPush env s .CopyToChar
    | none => s
  else if vkey = VK_F3 then
    match s.history with
    | some h =>
      let last := h.getLastCommand
      if s.bufferCursor < last.length then
        let count := last.length - s.bufferCursor
        _markAsDirty
          { s with
            buffer := strReplace s.buffer s.bufferCursor count ((last.drop s.bufferCursor).take count)
            bufferCursor := s.bufferCursor + count }
      else s
    | none => s
  else if vkey = VK_F4 then
    _popupPush env s .CopyFromChar
  else if vkey = VK_F6 then
    (_handleChar env s 0x1a modifiers).1
  else if vkey = VK_F7 then
    if ¬ctrlPressedB modifiers ∧ ¬altPressedB modifiers then
      match s.history with
      | some h => if h.numberOfCommands ≠ 0 then _popupPush env s .CommandList else s
      | none => s
    else if altPressedB modifiers then
      match s.history with
      | some h => { s with history := some h.emptied }
      | none => s
    else s
  else if vkey = VK_F8 then
    match s.history with
    | some h =>
      let pfx := s.buffer.take s.bufferCursor
      match h.findMatchingCommand pfx h.lastDisplayed with
      | some index =>
        let r := h.retrieveNth index
        _markAsDirty
          { s with
            history := some r.2
            buffer := r.1
            bufferCursor := min s.bufferCursor r.1.length }
      | none => s
    | none => s
  else if vkey = VK_F9 then
    match s.history with
    | some h => if h.numberOfCommands ≠ 0 then _popupPush env s .CommandNumber else s
    | none => s
  else if vkey = VK_F10 then
    -- Alt+F10 clears the cmd.exe aliases; the alias table has no
    -- representation in this state.
    s
  else s

/-- Source: `COOKED_READ_DATA::_popupHandleCopyToCharInput`: `Esc` dismisses; a
character looks for its first occurrence in the history's last command at or
after the caret, copies `cmd[caret..idx)` over the buffer if found, and
dismisses either way. -/
def _popupHandleCopyToCharInput (s : State) (wch : WChar) (vkey : Nat) : State :=
  if vkey ≠ 0 then
    if vkey = VK_ESCAPE then _popupsDone s else s
  else
    -- The source dereferences `_history` unconditionally here; a CopyToChar
    -- popup is only pushed when a history exists.
    let cmd := (s.history.getD default).getLastCommand
    match findFrom cmd wch s.bufferCursor with
    | some idx =>
      let count := idx - s.bufferCursor
      let s :=
        _markAsDirty
          { s with
            buffer := strReplace s.buffer s.bufferCursor count ((cmd.drop s.bufferCursor).take count)
            bufferCursor := s.bufferCursor + count }
      _popupsDone s
    | none => _popupsDone s

/-- Source: `COOKED_READ_DATA::_popupHandleCopyFromCharInput`: `Esc` dismisses; a
character deletes `buffer[caret..min(found, len))` and dismisses. -/
def _popupHandleCopyFromCharInput (s : State) (wch : WChar) (vkey : Nat) : State :=
  if vkey ≠ 0 then
    if vkey = VK_ESCAPE then _popupsDone s else s
  else
    let idx :=
      match findFrom s.buffer wch s.bufferCursor with
      | some i => min i s.buffer.length
      | none => s.buffer.length
    _popupsDone
      (_markAsDirty { s with buffer := strErase s.buffer s.bufferCursor (idx - s.bufferCursor) })

/-- Source: `COOKED_READ_DATA::_popupHandleCommandNumberInput`: digits accumulate (at
most five), backspace removes the last digit, `Esc` dismisses, and `Enter`
runs `std::stoi` over the digit buffer — which throws `invalid_argument` when
no digit was typed — and replaces the edit buffer with `RetrieveNth` of the
parsed number. -/
def _popupHandleCommandNumberInput (s : State) (popup : Popup) (wch : WChar) (vkey : Nat) :
    Except ReadErr State :=
  if vkey ≠ 0 then
    .ok (if vkey = VK_ESCAPE then _popupsDone s else s)
  else if wch = UNICODE_CARRIAGERETURN then
    match stoiDigits popup.cnDigits with
    | none => .error .invalidArgument
    | some n =>
      let h := s.history.getD default
      let r := h.retrieveNth n
      .ok (_popupsDone (_replaceBuffer { s with history := some r.2 } r.1))
  else if 48 ≤ wch ∧ wch ≤ 57 then
    .ok
      (if popup.cnDigits.length < CommandNumberMaxInputLength then
        setBack s { popup with cnDigits := popup.cnDigits ++ [wch] }
      else s)
  else if wch = UNICODE_BACKSPACE then
    .ok
      (if 0 < popup.cnDigits.length then setBack s { popup with cnDigits := popup.cnDigits.dropLast }
      else s)
  else .ok s

/-- Source: `COOKED_READ_DATA::_popupHandleCommandListInput`: `Enter` picks the
selected command and re-enters `_handleChar` with `\r`; `Esc` dismisses; `F9`
stacks a CommandNumber popup; `Delete` removes the selected command; arrows
and paging move `selected` (with `Shift` swapping first); every modification
redraws via `_popupDrawCommandList`. -/
def _popupHandleCommandListInput (env : Env) (s : State) (popup : Popup) (wch : WChar)
    (vkey : Nat) (modifiers : Nat) : State × Bool :=
  if wch = UNICODE_CARRIAGERETURN then
    let h := s.history.getD default
    let r := h.retrieveNth popup.clSelected
    let s := { s with buffer := r.1, history := some r.2 }
    let s := _popupsDone s
    _handleChar env s UNICODE_CARRIAGERETURN modifiers
  else if vkey = VK_ESCAPE then
    (_popupsDone s, false)
  else if vkey = VK_F9 then
    (_popupPush env s .CommandNumber, false)
  else if vkey = VK_DELETE then
    let h := (s.history.getD default).remove popup.clSelected
    let s := { s with history := some h }
    if h.numberOfCommands ≤ 0 then (_popupsDone s, false)
    else (_popupDrawCommandList s popup, false)
  else if vkey = VK_LEFT ∨ vkey = VK_RIGHT then
    let h := s.history.getD default
    let r := h.retrieveNth popup.clSelected
    (_popupsDone (_replaceBuffer { s with history := some r.2 } r.1), false)
  else if vkey = VK_UP then
    let s :=
      if modifiers &&& SHIFT_PRESSED ≠ 0 then
        let h := s.history.getD default
        { s with history := some (h.swap popup.clSelected (popup.clSelected - 1)) }
      else s
    (_popupDrawCommandList s { popup with clSelected := popup.clSelected - 1 }, false)
  else if vkey = VK_DOWN then
    let s :=
      if modifiers &&& SHIFT_PRESSED ≠ 0 then
        let h := s.history.getD default
        { s with history := some (h.swap popup.clSelected (popup.clSelected + 1)) }
      else s
    (_popupDrawCommandList s { popup with clSelected := popup.clSelected + 1 }, false)
  else if vkey = VK_HOME then
    (_popupDrawCommandList s { popup with clSelected := 0 }, false)
  else if vkey = VK_END then
    (_popupDrawCommandList s { popup with clSelected := INT_MAX }, false)
  else if vkey = VK_PRIOR then
    (_popupDrawCommandList s { popup with clSelected := popup.clSelected - popup.contentHeight },
      false)
  else if vkey = VK_NEXT then
    (_popupDrawCommandList s { popup with clSelected := popup.clSelected + popup.contentHeight },
      false)
  else (s, false)

/-- Source: `COOKED_READ_DATA::_popupHandleInput`: dispatch on the kind of the topmost
popup.  Only the CommandList handler can signal "done". -/
def _popupHandleInput (env : Env) (s : State) (wch : WChar) (vkey : Nat) (modifiers : Nat) :
    Except ReadErr (State × Bool) :=
  match s.popups.getLast? with
  | none => .ok (s, false)
  | some popup =>
    match popup.kind with
    | .CopyToChar => .ok (_popupHandleCopyToCharInput s wch vkey, false)
    | .CopyFromChar => .ok (_popupHandleCopyFromCharInput s wch vkey, false)
    | .CommandNumber =>
      (_popupHandleCommandNumberInput s popup wch vkey).map (fun s' => (s', false))
    | .CommandList => .ok (_popupHandleCommandListInput env s popup wch vkey modifiers)

/-- One token as classified by `GetChar`: a character, or a virtual key
(command-line-editing keys outside popups, popup keys inside). -/
inductive InputEvent
  | ch (wch : WChar) (modifiers : Nat)
  | vk (vkey : Nat) (modifiers : Nat)
deriving DecidableEq

/-- One iteration of `_readCharInputLoop`: with a popup the token goes to
`_popupHandleInput` (characters with `vkey = 0`, keys with `wch = 0`);
otherwise virtual keys go to `_handleVkey` (never "done") and characters to
`_handleChar`. -/
def _readCharStep (env : Env) (s : State) (ev : InputEvent) : Except ReadErr (State × Bool) :=
  if s.popups = [] then
    match ev with
    | .vk vkey modifiers => .ok (_handleVkey env s vkey modifiers, false)
    | .ch wch modifiers => .ok (_handleChar env s wch modifiers)
  else
    match ev with
    | .ch wch modifiers => _popupHandleInput env s wch 0 modifiers
    | .vk vkey modifiers => _popupHandleInput env s 0 vkey modifiers

/-- Source: `COOKED_READ_DATA::_readCharInputLoop` over a finite token supply: an
exhausted supply is `GetChar` returning `CONSOLE_STATUS_WAIT` (the suspension
point), a `true` from a handler ends the read. -/
def _readCharInputLoop (env : Env) (s : State) : List InputEvent → Except ReadErr (State × Bool)
  | [] => .ok (s, false)
  | ev :: rest =>
    match _readCharStep env s ev with
    | .error e => .error e
    | .ok (s', done) => if done then .ok (s', true) else _readCharInputLoop env s' rest

/-- Source: `COOKED_READ_DATA::Read` up to (and excluding) the post-char pipeline: run
the input loop, then `_flushBuffer` — both on suspension and on
completion. -/
def Read (env : Env) (s : State) (events : List InputEvent) : Except ReadErr (State × Bool) :=
  match _readCharInputLoop env s events with
  | .error e => .error e
  | .ok (s', done) => .ok (_flushBuffer env s', done)

/-- The observable outcome of `_handlePostCharInputLoop`: the final state
(with the pending-input slots filled), the slice that was handed to
`InputBuffer::Consume`, how many code units `Consume` took, and the alias
line count. -/
structure PostOutcome where
  state : State
  consumeArg : List WChar
  amountConsumed : Nat
  lineCount : Nat
deriving DecidableEq

/-- Source: `COOKED_READ_DATA::_handlePostCharInputLoop`: strip the newline suffix,
append to history, alias-expand (recording `lineCount`), restore the suffix,
truncate to the first line when the alias is multi-line, `Consume` into the
client buffer, and save the remainder as (multi-line) pending input. -/
def _handlePostCharInputLoop (env : Env) (s : State) (isUnicode : Bool) : PostOutcome :=
  let step1 : State × List WChar × Nat :=
    if s.echoInput then
      let suffix := _newlineSuffix s
      if endsWith s.buffer suffix then
        let stripped := s.buffer.take (s.buffer.length - suffix.length)
        let s :=
          { s with
            history :=
              match s.history with
              | some h => some (h.add stripped s.histNoDup)
              | none => none }
        match env.aliasMatch stripped s.exeName with
        | some (aliasText, lineCount) =>
          let s := if aliasText ≠ [] then { s with buffer := aliasText } else s
          let input := s.buffer
          let input :=
            if 1 < lineCount then
              let firstLineEnd :=
                match findFrom input UNICODE_LINEFEED 0 with
                | some i => i + 1
                | none => 0
              input.take (min input.length firstLineEnd)
            else input
          (s, input, lineCount)
        | none => (s, s.buffer, 1)
      else (s, s.buffer, 1)
    else (s, s.buffer, 1)
  let s := step1.1
  let input := step1.2.1
  let lineCount := step1.2.2
  let inputSizeBefore := input.length
  let amountConsumed := min (env.consumeRet isUnicode input) inputSizeBefore
  let inputAfter := input.drop amountConsumed
  let s :=
    if 1 < lineCount then
      { s with
        multilinePending := some (s.buffer.drop (min s.buffer.length amountConsumed)) }
    else if inputAfter ≠ [] then { s with pendingInput := some inputAfter }
    else s
  { state := s, consumeArg := input, amountConsumed := amountConsumed, lineCount := lineCount }

/-- The predicate of the popup-stack invariant: at most two popups, and a
two-deep stack is exactly a CommandNumber atop a CommandList. -/
def popupStackOK : List Popup → Bool
  | [] => true
  | [_] => true
  | [a, b] => a.kind == PopupKind.CommandList && b.kind == PopupKind.CommandNumber
  | _ => false

/-- A concrete environment for evaluating the model: an 80×25 viewport, a
screen writer reporting one cell per code unit, no alias matches, and a
`Consume` that takes everything offered. -/
def env0 : Env :=
  { writeCharsRet := fun text => text.length
    viewportSize := (80, 25)
    popupPushFails := fun _ => false
    aliasMatch := fun _ _ => none
    consumeRet := fun _ text => text.length }

/-- A concrete initial state: empty buffer, processed input, echo on, insert
mode, no wakeup mask, no popups, no history. -/
def state0 : State :=
  { ctrlWakeupMask := 0
    processedInput := true
    echoInput := true
    exeName := []
    histNoDup := false
    buffer := []
    bufferCursor := 0
    bufferDirty := false
    insertMode := true
    controlKeyState := 0
    distanceCursor := 0
    distanceEnd := 0
    popups := []
    history := none
    pendingInput := none
    multilinePending := none }

/-- A concrete popup for evaluating the model. -/
def popup0 : Popup :=
  { kind := .CopyToChar, cnDigits := [], clSelected := 0, clTop := 0, clDirtyHeight := 0,
    contentHeight := 1 }

/-- A concrete environment for the alias scenario: `test` expands to
`"a\r\nb\r\n"` (two lines) and `Consume` takes three code units. -/
def env8 : Env :=
  { env0 with
    aliasMatch := fun _ _ => some ([97, 13, 10, 98, 13, 10], 2)
    consumeRet := fun _ _ => 3 }

/-- A committed buffer `"test\r\n"`. -/
def s8 : State :=
  { state0 with buffer := [116, 101, 115, 116, 13, 10] }

/-- A concrete environment whose `Consume` takes one code unit and whose alias
table is empty. -/
def env82 : Env :=
  { env0 with consumeRet := fun _ _ => 1 }

/-- A committed buffer `"hi\r\n"`. -/
def s82 : State :=
  { state0 with buffer := [104, 105, 13, 10] }

/-- The caret bound of the spec's data model: `caret ≤ length`. -/
def CursorInv (s : State) : Prop :=
  s.bufferCursor ≤ s.buffer.length

theorem strInsert_length (l : List WChar) (pos : Nat) (c : WChar) :
    (strInsert l pos c).length = l.length + 1 := by
  simp [strInsert]
  omega

theorem strErase_length (l : List WChar) (pos count : Nat) :
    (strErase l pos count).length = min pos l.length + (l.length - (pos + count)) := by
  simp [strErase]

theorem strReplace_length (l : List WChar) (pos count : Nat) (repl : List WChar) :
    (strReplace l pos count repl).length =
      min pos l.length + repl.length + (l.length - (pos + count)) := by
  simp [strReplace]
  omega

theorem skipSpaceBack_le (chars : List WChar) : ∀ p, skipSpaceBack chars p ≤ p
  | 0 => Nat.le_refl _
  | p + 1 => by
    unfold skipSpaceBack
    split
    · exact Nat.le_succ_of_le (skipSpaceBack_le chars p)
    · exact Nat.le_refl _

theorem skipClassBack_le (chars : List WChar) (dc : DelimClass) :
    ∀ p, skipClassBack chars dc p ≤ p
  | 0 => Nat.le_refl _
  | p + 1 => by
    unfold skipClassBack
    split
    · exact Nat.le_succ_of_le (skipClassBack_le chars dc p)
    · exact Nat.le_refl _

theorem skipExtendBack_le (text : List WChar) : ∀ j, skipExtendBack text j ≤ j
  | 0 => Nat.le_refl _
  | j + 1 => by
    unfold skipExtendBack
    split
    · exact Nat.le_succ_of_le (skipExtendBack_le text j)
    · exact Nat.le_refl _

theorem wordPrev_le (chars : List WChar) (position : Nat) : _wordPrev chars position ≤ position := by
  unfold _wordPrev
  split
  · omega
  · dsimp only
    have h1 := skipSpaceBack_le chars (position - 1)
    have h2 :=
      skipClassBack_le chars (DelimiterClass (chars.getD (skipSpaceBack chars (position - 1)) 0))
        (skipSpaceBack chars (position - 1))
    omega

theorem skipClassFwd_ge (chars : List WChar) (dc : DelimClass) :
    ∀ fuel p, p ≤ skipClassFwd chars dc fuel p
  | 0, _ => Nat.le_refl _
  | fuel + 1, p => by
    unfold skipClassFwd
    split
    · exact Nat.le_trans (Nat.le_succ _) (skipClassFwd_ge chars dc fuel (p + 1))
    · exact Nat.le_refl _

theorem skipClassFwd_le_length (chars : List WChar) (dc : DelimClass) :
    ∀ fuel p, p ≤ chars.length → skipClassFwd chars dc fuel p ≤ chars.length
  | 0, _, h => h
  | fuel + 1, p, h => by
    unfold skipClassFwd
    split
    · next hc => exact skipClassFwd_le_length chars dc fuel (p + 1) hc.1
    · exact h

theorem skipSpaceFwd_ge (chars : List WChar) :
    ∀ fuel p, p ≤ skipSpaceFwd chars fuel p
  | 0, _ => Nat.le_refl _
  | fuel + 1, p => by
    unfold skipSpaceFwd
    split
    · exact Nat.le_trans (Nat.le_succ _) (skipSpaceFwd_ge chars fuel (p + 1))
    · exact Nat.le_refl _

theorem skipSpaceFwd_le_length (chars : List WChar) :
    ∀ fuel p, p ≤ chars.length → skipSpaceFwd chars fuel p ≤ chars.length
  | 0, _, h => h
  | fuel + 1, p, h => by
    unfold skipSpaceFwd
    split
    · next hc => exact skipSpaceFwd_le_length chars fuel (p + 1) hc.1
    · exact h

theorem wordNext_ge (chars : List WChar) (position : Nat) : position ≤ _wordNext chars position := by
  unfold _wordNext
  split
  · have h1 := skipClassFwd_ge chars (DelimiterClass (chars.getD position 0)) chars.length
      (position + 1)
    have h2 := skipSpaceFwd_ge chars chars.length
      (skipClassFwd chars (DelimiterClass (chars.getD position 0)) chars.length (position + 1))
    simp only [Nat.add_sub_cancel]
    omega
  · exact Nat.le_refl _

theorem wordNext_le_length (chars : List WChar) (position : Nat)
    (h : position ≤ chars.length) : _wordNext chars position ≤ chars.length := by
  unfold _wordNext
  split
  · next hp =>
    have h1 := skipClassFwd_le_length chars (DelimiterClass (chars.getD position 0)) chars.length
      (position + 1) hp
    exact skipSpaceFwd_le_length chars chars.length _ h1
  · exact h

theorem skipExtendFwd_ge (text : List WChar) :
    ∀ fuel j, j ≤ skipExtendFwd text fuel j
  | 0, _ => Nat.le_refl _
  | fuel + 1, j => by
    unfold skipExtendFwd
    split
    · exact Nat.le_trans (Nat.le_succ _) (skipExtendFwd_ge text fuel (j + 1))
    · exact Nat.le_refl _

theorem skipExtendFwd_le_length (text : List WChar) :
    ∀ fuel j, j ≤ text.length → skipExtendFwd text fuel j ≤ text.length
  | 0, _, h => h
  | fuel + 1, j, h => by
    unfold skipExtendFwd
    split
    · next hc => exact skipExtendFwd_le_length text fuel (j + 1) hc.1
    · exact h

theorem graphemeNext_le_length (text : List WChar) (i : Nat) :
    graphemeNext text i ≤ text.length := by
  unfold graphemeNext
  split
  · next hi => exact skipExtendFwd_le_length text text.length (i + 1) hi
  · exact Nat.le_refl _

theorem graphemeNext_gt (text : List WChar) (i : Nat) (h : i < text.length) :
    i < graphemeNext text i := by
  unfold graphemeNext
  rw [if_pos h]
  exact Nat.lt_of_lt_of_le (Nat.lt_succ_self i) (skipExtendFwd_ge text text.length (i + 1))

theorem graphemePrev_le (text : List WChar) (i : Nat) : graphemePrev text i ≤ i := by
  unfold graphemePrev
  split
  · omega
  · have := skipExtendBack_le text (i - 1)
    omega

theorem scanIdx_lt_length (c : WChar) : ∀ (l : List WChar) (j : Nat),
    scanIdx c l = some j → j < l.length
  | [], j => by simp [scanIdx]
  | x :: xs, j => by
    unfold scanIdx
    split
    · intro h
      simp only [Option.some.injEq] at h
      simp only [List.length_cons]
      omega
    · intro h
      simp only [Option.map_eq_some'] at h
      obtain ⟨j', hj', rfl⟩ := h
      have := scanIdx_lt_length c xs j' hj'
      simp only [List.length_cons]
      omega

theorem findFrom_bounds (l : List WChar) (c : WChar) (pos idx : Nat)
    (h : findFrom l c pos = some idx) : pos ≤ idx ∧ idx < l.length := by
  unfold findFrom at h
  simp only [Option.map_eq_some'] at h
  obtain ⟨j, hj, rfl⟩ := h
  have hlt := scanIdx_lt_length c (l.drop pos) j hj
  simp only [List.length_drop] at hlt
  omega

theorem flushBuffer_buffer (env : Env) (s : State) : (_flushBuffer env s).buffer = s.buffer := by
  unfold _flushBuffer
  dsimp only
  split
  · rfl
  · split <;> rfl

theorem flushBuffer_popups (env : Env) (s : State) : (_flushBuffer env s).popups = s.popups := by
  unfold _flushBuffer
  dsimp only
  split
  · rfl
  · split <;> rfl

theorem flushBuffer_cursorInv (env : Env) (s : State) : CursorInv (_flushBuffer env s) := by
  unfold CursorInv _flushBuffer
  dsimp only
  split
  · dsimp only
    omega
  · split <;> (dsimp only; omega)

theorem handleChar_popups (env : Env) (s : State) (wch : WChar) (m : Nat) :
    (_handleChar env s wch m).1.popups = s.popups := by
  unfold _handleChar _markAsDirty
  dsimp only
  split
  · exact flushBuffer_popups env s
  · split
    · rfl
    · split
      · rfl
      · rfl

theorem handleChar_cursorInv (env : Env) (s : State) (wch : WChar) (m : Nat) (h : CursorInv s) :
    CursorInv (_handleChar env s wch m).1 := by
  have hf := flushBuffer_cursorInv env s
  unfold CursorInv at *
  unfold _handleChar _markAsDirty
  dsimp only
  split
  · dsimp only
    rw [strInsert_length]
    omega
  · split
    · dsimp only
      exact Nat.le_refl _
    · split
      · dsimp only
        split
        · rw [strErase_length]
          have := wordPrev_le s.buffer s.bufferCursor
          omega
        · rw [strErase_length]
          have := graphemePrev_le s.buffer s.bufferCursor
          omega
      · dsimp only
        split
        · rw [strInsert_length]
          omega
        · rw [strReplace_length]
          simp only [List.length_singleton]
          omega

theorem handleChar_cr_cursorInv (env : Env) (s : State) (m : Nat) :
    CursorInv (_handleChar env s 13 m).1 := by
  have hf := flushBuffer_cursorInv env s
  unfold CursorInv at *
  unfold _handleChar _markAsDirty
  dsimp only
  split
  · dsimp only
    rw [strInsert_length]
    omega
  · have hcr : (13 : WChar) = UNICODE_CARRIAGERETURN := rfl
    rw [if_pos hcr]

theorem popupPush_cursorInv (env : Env) (s : State) (k : PopupKind) (h : CursorInv s) :
    CursorInv (_popupPush env s k) := by
  have hf := flushBuffer_cursorInv env s
  unfold CursorInv at *
  unfold _popupPush _popupsDone _popupDrawCommandList setBack
  dsimp only
  split
  · exact h
  · split
    · exact hf
    · split <;> (dsimp only; exact hf)


set_option maxHeartbeats 2000000 in
set_option linter.unreachableTactic false in
set_option linter.unusedTactic false in
theorem handleVkey_cursorInv (env : Env) (s : State) (vkey m : Nat) (h : CursorInv s) :
    CursorInv (_handleVkey env s vkey m) := by
  unfold CursorInv at *
  unfold _handleVkey _markAsDirty _replaceBuffer
  by_cases hv1 : vkey = VK_ESCAPE
  · rw [if_pos hv1]
    repeat' split
    all_goals try dsimp only
    all_goals
      first
      | exact h
      | exact Nat.le_refl _
      | exact Nat.zero_le _
      | exact Nat.min_le_right _ _
      | exact popupPush_cursorInv env s _ h
      | exact handleChar_cursorInv env s 26 m h
      | exact Nat.le_trans (wordPrev_le _ _) h
      | exact Nat.le_trans (graphemePrev_le _ _) h
      | exact wordNext_le_length _ _ h
      | exact graphemeNext_le_length _ _
      | (rw [strErase_length]; omega)
      | (rw [strReplace_length]; simp only [List.length_take, List.length_drop]; omega)
      | (split <;>
          first
            | exact h
            | exact popupPush_cursorInv env s _ h
            | exact Nat.min_le_right _ _
            | (rw [strErase_length]; omega)
            | (rw [strReplace_length]; simp only [List.length_take, List.length_drop]; omega))
  rw [if_neg hv1]
  by_cases hv2 : vkey = VK_HOME
  · rw [if_pos hv2]
    repeat' split
    all_goals try dsimp only
    all_goals
      first
      | exact h
      | exact Nat.le_refl _
      | exact Nat.zero_le _
      | exact Nat.min_le_right _ _
      | exact popupPush_cursorInv env s _ h
      | exact handleChar_cursorInv env s 26 m h
      | exact Nat.le_trans (wordPrev_le _ _) h
      | exact Nat.le_trans (graphemePrev_le _ _) h
      | exact wordNext_le_length _ _ h
      | exact graphemeNext_le_length _ _
      | (rw [strErase_length]; omega)
      | (rw [strReplace_length]; simp only [List.length_take, List.length_drop]; omega)
      | (split <;>
          first
            | exact h
            | exact popupPush_cursorInv env s _ h
            | exact Nat.min_le_right _ _
            | (rw [strErase_length]; omega)
            | (rw [strReplace_length]; simp only [List.length_take, List.length_drop]; omega))
  rw [if_neg hv2]
  by_cases hv3 : vkey = VK_END
  · rw [if_pos hv3]
    repeat' split
    all_goals try dsimp only
    all_goals
      first
      | exact h
      | exact Nat.le_refl _
      | exact Nat.zero_le _
      | exact Nat.min_le_right _ _
      | exact popupPush_cursorInv env s _ h
      | exact handleChar_cursorInv env s 26 m h
      | exact Nat.le_trans (wordPrev_le _ _) h
      | exact Nat.le_trans (graphemePrev_le _ _) h
      | exact wordNext_le_length _ _ h
      | exact graphemeNext_le_length _ _
      | (rw [strErase_length]; omega)
      | (rw [strReplace_length]; simp only [List.length_take, List.length_drop]; omega)
      | (split <;>
          first
            | exact h
            | exact popupPush_cursorInv env s _ h
            | exact Nat.min_le_right _ _
            | (rw [strErase_length]; omega)
            | (rw [strReplace_length]; simp only [List.length_take, List.length_drop]; omega))
  rw [if_neg hv3]
  by_cases hv4 : vkey = VK_LEFT
  · rw [if_pos hv4]
    repeat' split
    all_goals try dsimp only
    all_goals
      first
      | exact h
      | exact Nat.le_refl _
      | exact Nat.zero_le _
      | exact Nat.min_le_right _ _
      | exact popupPush_cursorInv env s _ h
      | exact handleChar_cursorInv env s 26 m h
      | exact Nat.le_trans (wordPrev_le _ _) h
      | exact Nat.le_trans (graphemePrev_le _ _) h
      | exact wordNext_le_length _ _ h
      | exact graphemeNext_le_length _ _
      | (rw [strErase_length]; omega)
      | (rw [strReplace_length]; simp only [List.length_take, List.length_drop]; omega)
      | (split <;>
          first
            | exact h
            | exact popupPush_cursorInv env s _ h
            | exact Nat.min_le_right _ _
            | (rw [strErase_length]; omega)
            | (rw [strReplace_length]; simp only [List.length_take, List.length_drop]; omega))
  rw [if_neg hv4]
  by_cases hv5 : vkey = VK_F1 ∨ vkey = VK_RIGHT
  · rw [if_pos hv5]
    repeat' split
    all_goals try dsimp only
    all_goals
      first
      | exact h
      | exact wordNext_le_length _ _ h
      | exact graphemeNext_le_length _ _
      | (rename_i hh heq
         cases hr : rightArrowPaste hh.getLastCommand s.buffer (hh.getLastCommand.length + 1) 0 0 with
         | none => exact h
         | some pair =>
           obtain ⟨cmdBeg, cmdEnd⟩ := pair
           exact Nat.le_refl _)
  rw [if_neg hv5]
  by_cases hv6 : vkey = VK_INSERT
  · rw [if_pos hv6]
    repeat' split
    all_goals try dsimp only
    all_goals
      first
      | exact h
      | exact Nat.le_refl _
      | exact Nat.zero_le _
      | exact Nat.min_le_right _ _
      | exact popupPush_cursorInv env s _ h
      | exact handleChar_cursorInv env s 26 m h
      | exact Nat.le_trans (wordPrev_le _ _) h
      | exact Nat.le_trans (graphemePrev_le _ _) h
      | exact wordNext_le_length _ _ h
      | exact graphemeNext_le_length _ _
      | (rw [strErase_length]; omega)
      | (rw [strReplace_length]; simp only [List.length_take, List.length_drop]; omega)
      | (split <;>
          first
            | exact h
            | exact popupPush_cursorInv env s _ h
            | exact Nat.min_le_right _ _
            | (rw [strErase_length]; omega)
            | (rw [strReplace_length]; simp only [List.length_take, List.length_drop]; omega))
  rw [if_neg hv6]
  by_cases hv7 : vkey = VK_DELETE
  · rw [if_pos hv7]
    repeat' split
    all_goals try dsimp only
    all_goals
      first
      | exact h
      | exact Nat.le_refl _
      | exact Nat.zero_le _
      | exact Nat.min_le_right _ _
      | exact popupPush_cursorInv env s _ h
      | exact handleChar_cursorInv env s 26 m h
      | exact Nat.le_trans (wordPrev_le _ _) h
      | exact Nat.le_trans (graphemePrev_le _ _) h
      | exact wordNext_le_length _ _ h
      | exact graphemeNext_le_length _ _
      | (rw [strErase_length]; omega)
      | (rw [strReplace_length]; simp only [List.length_take, List.length_drop]; omega)
      | (split <;>
          first
            | exact h
            | exact popupPush_cursorInv env s _ h
            | exact Nat.min_le_right _ _
            | (rw [strErase_length]; omega)
            | (rw [strReplace_length]; simp only [List.length_take, List.length_drop]; omega))
  rw [if_neg hv7]
  by_cases hv8 : vkey = VK_UP ∨ vkey = VK_F5
  · rw [if_pos hv8]
    repeat' split
    all_goals try dsimp only
    all_goals
      first
      | exact h
      | exact Nat.le_refl _
      | exact Nat.zero_le _
      | exact Nat.min_le_right _ _
      | exact popupPush_cursorInv env s _ h
      | exact handleChar_cursorInv env s 26 m h
      | exact Nat.le_trans (wordPrev_le _ _) h
      | exact Nat.le_trans (graphemePrev_le _ _) h
      | exact wordNext_le_length _ _ h
      | exact graphemeNext_le_length _ _
      | (rw [strErase_length]; omega)
      | (rw [strReplace_length]; simp only [List.length_take, List.length_drop]; omega)
      | (split <;>
          first
            | exact h
            | exact popupPush_cursorInv env s _ h
            | exact Nat.min_le_right _ _
            | (rw [strErase_length]; omega)
            | (rw [strReplace_length]; simp only [List.length_take, List.length_drop]; omega))
  rw [if_neg hv8]
  by_cases hv9 : vkey = VK_DOWN
  · rw [if_pos hv9]
    repeat' split
    all_goals try dsimp only
    all_goals
      first
      | exact h
      | exact Nat.le_refl _
      | exact Nat.zero_le _
      | exact Nat.min_le_right _ _
      | exact popupPush_cursorInv env s _ h
      | exact handleChar_cursorInv env s 26 m h
      | exact Nat.le_trans (wordPrev_le _ _) h
      | exact Nat.le_trans (graphemePrev_le _ _) h
      | exact wordNext_le_length _ _ h
      | exact graphemeNext_le_length _ _
      | (rw [strErase_length]; omega)
      | (rw [strReplace_length]; simp only [List.length_take, List.length_drop]; omega)
      | (split <;>
          first
            | exact h
            | exact popupPush_cursorInv env s _ h
            | exact Nat.min_le_right _ _
            | (rw [strErase_length]; omega)
            | (rw [strReplace_length]; simp only [List.length_take, List.length_drop]; omega))
  rw [if_neg hv9]
  by_cases hv10 : vkey = VK_PRIOR
  · rw [if_pos hv10]
    repeat' split
    all_goals try dsimp only
    all_goals
      first
      | exact h
      | exact Nat.le_refl _
      | exact Nat.zero_le _
      | exact Nat.min_le_right _ _
      | exact popupPush_cursorInv env s _ h
      | exact handleChar_cursorInv env s 26 m h
      | exact Nat.le_trans (wordPrev_le _ _) h
      | exact Nat.le_trans (graphemePrev_le _ _) h
      | exact wordNext_le_length _ _ h
      | exact graphemeNext_le_length _ _
      | (rw [strErase_length]; omega)
      | (rw [strReplace_length]; simp only [List.length_take, List.length_drop]; omega)
      | (split <;>
          first
            | exact h
            | exact popupPush_cursorInv env s _ h
            | exact Nat.min_le_right _ _
            | (rw [strErase_length]; omega)
            | (rw [strReplace_length]; simp only [List.length_take, List.length_drop]; omega))
  rw [if_neg hv10]
  by_cases hv11 : vkey = VK_NEXT
  · rw [if_pos hv11]
    repeat' split
    all_goals try dsimp only
    all_goals
      first
      | exact h
      | exact Nat.le_refl _
      | exact Nat.zero_le _
      | exact Nat.min_le_right _ _
      | exact popupPush_cursorInv env s _ h
      | exact handleChar_cursorInv env s 26 m h
      | exact Nat.le_trans (wordPrev_le _ _) h
      | exact Nat.le_trans (graphemePrev_le _ _) h
      | exact wordNext_le_length _ _ h
      | exact graphemeNext_le_length _ _
      | (rw [strErase_length]; omega)
      | (rw [strReplace_length]; simp only [List.length_take, List.length_drop]; omega)
      | (split <;>
          first
            | exact h
            | exact popupPush_cursorInv env s _ h
            | exact Nat.min_le_right _ _
            | (rw [strErase_length]; omega)
            | (rw [strReplace_length]; simp only [List.length_take, List.length_drop]; omega))
  rw [if_neg hv11]
  by_cases hv12 : vkey = VK_F2
  · rw [if_pos hv12]
    repeat' split
    all_goals try dsimp only
    all_goals
      first
      | exact h
      | exact Nat.le_refl _
      | exact Nat.zero_le _
      | exact Nat.min_le_right _ _
      | exact popupPush_cursorInv env s _ h
      | exact handleChar_cursorInv env s 26 m h
      | exact Nat.le_trans (wordPrev_le _ _) h
      | exact Nat.le_trans (graphemePrev_le _ _) h
      | exact wordNext_le_length _ _ h
      | exact graphemeNext_le_length _ _
      | (rw [strErase_length]; omega)
      | (rw [strReplace_length]; simp only [List.length_take, List.length_drop]; omega)
      | (split <;>
          first
            | exact h
            | exact popupPush_cursorInv env s _ h
            | exact Nat.min_le_right _ _
            | (rw [strErase_length]; omega)
            | (rw [strReplace_length]; simp only [List.length_take, List.length_drop]; omega))
  rw [if_neg hv12]
  by_cases hv13 : vkey = VK_F3
  · rw [if_pos hv13]
    repeat' split
    all_goals try dsimp only
    all_goals
      first
      | exact h
      | exact Nat.le_refl _
      | exact Nat.zero_le _
      | exact Nat.min_le_right _ _
      | exact popupPush_cursorInv env s _ h
      | exact handleChar_cursorInv env s 26 m h
      | exact Nat.le_trans (wordPrev_le _ _) h
      | exact Nat.le_trans (graphemePrev_le _ _) h
      | exact wordNext_le_length _ _ h
      | exact graphemeNext_le_length _ _
      | (rw [strErase_length]; omega)
      | (rw [strReplace_length]; simp only [List.length_take, List.length_drop]; omega)
      | (split <;>
          first
            | exact h
            | exact popupPush_cursorInv env s _ h
            | exact Nat.min_le_right _ _
            | (rw [strErase_length]; omega)
            | (rw [strReplace_length]; simp only [List.length_take, List.length_drop]; omega))
  rw [if_neg hv13]
  by_cases hv14 : vkey = VK_F4
  · rw [if_pos hv14]
    repeat' split
    all_goals try dsimp only
    all_goals
      first
      | exact h
      | exact Nat.le_refl _
      | exact Nat.zero_le _
      | exact Nat.min_le_right _ _
      | exact popupPush_cursorInv env s _ h
      | exact handleChar_cursorInv env s 26 m h
      | exact Nat.le_trans (wordPrev_le _ _) h
      | exact Nat.le_trans (graphemePrev_le _ _) h
      | exact wordNext_le_length _ _ h
      | exact graphemeNext_le_length _ _
      | (rw [strErase_length]; omega)
      | (rw [strReplace_length]; simp only [List.length_take, List.length_drop]; omega)
      | (split <;>
          first
            | exact h
            | exact popupPush_cursorInv env s _ h
            | exact Nat.min_le_right _ _
            | (rw [strErase_length]; omega)
            | (rw [strReplace_length]; simp only [List.length_take, List.length_drop]; omega))
  rw [if_neg hv14]
  by_cases hv15 : vkey = VK_F6
  · rw [if_pos hv15]
    repeat' split
    all_goals try dsimp only
    all_goals
      first
      | exact h
      | exact Nat.le_refl _
      | exact Nat.zero_le _
      | exact Nat.min_le_right _ _
      | exact popupPush_cursorInv env s _ h
      | exact handleChar_cursorInv env s 26 m h
      | exact Nat.le_trans (wordPrev_le _ _) h
      | exact Nat.le_trans (graphemePrev_le _ _) h
      | exact wordNext_le_length _ _ h
      | exact graphemeNext_le_length _ _
      | (rw [strErase_length]; omega)
      | (rw [strReplace_length]; simp only [List.length_take, List.length_drop]; omega)
      | (split <;>
          first
            | exact h
            | exact popupPush_cursorInv env s _ h
            | exact Nat.min_le_right _ _
            | (rw [strErase_length]; omega)
            | (rw [strReplace_length]; simp only [List.length_take, List.length_drop]; omega))
  rw [if_neg hv15]
  by_cases hv16 : vkey = VK_F7
  · rw [if_pos hv16]
    repeat' split
    all_goals try dsimp only
    all_goals
      first
      | exact h
      | exact Nat.le_refl _
      | exact Nat.zero_le _
      | exact Nat.min_le_right _ _
      | exact popupPush_cursorInv env s _ h
      | exact handleChar_cursorInv env s 26 m h
      | exact Nat.le_trans (wordPrev_le _ _) h
      | exact Nat.le_trans (graphemePrev_le _ _) h
      | exact wordNext_le_length _ _ h
      | exact graphemeNext_le_length _ _
      | (rw [strErase_length]; omega)
      | (rw [strReplace_length]; simp only [List.length_take, List.length_drop]; omega)
      | (split <;>
          first
            | exact h
            | exact popupPush_cursorInv env s _ h
            | exact Nat.min_le_right _ _
            | (rw [strErase_length]; omega)
            | (rw [strReplace_length]; simp only [List.length_take, List.length_drop]; omega))
  rw [if_neg hv16]
  by_cases hv17 : vkey = VK_F8
  · rw [if_pos hv17]
    repeat' split
    all_goals try dsimp only
    all_goals
      first
      | exact h
      | exact Nat.le_refl _
      | exact Nat.zero_le _
      | exact Nat.min_le_right _ _
      | exact popupPush_cursorInv env s _ h
      | exact handleChar_cursorInv env s 26 m h
      | exact Nat.le_trans (wordPrev_le _ _) h
      | exact Nat.le_trans (graphemePrev_le _ _) h
      | exact wordNext_le_length _ _ h
      | exact graphemeNext_le_length _ _
      | (rw [strErase_length]; omega)
      | (rw [strReplace_length]; simp only [List.length_take, List.length_drop]; omega)
      | (split <;>
          first
            | exact h
            | exact popupPush_cursorInv env s _ h
            | exact Nat.min_le_right _ _
            | (rw [strErase_length]; omega)
            | (rw [strReplace_length]; simp only [List.length_take, List.length_drop]; omega))
  rw [if_neg hv17]
  by_cases hv18 : vkey = VK_F9
  · rw [if_pos hv18]
    repeat' split
    all_goals try dsimp only
    all_goals
      first
      | exact h
      | exact Nat.le_refl _
      | exact Nat.zero_le _
      | exact Nat.min_le_right _ _
      | exact popupPush_cursorInv env s _ h
      | exact handleChar_cursorInv env s 26 m h
      | exact Nat.le_trans (wordPrev_le _ _) h
      | exact Nat.le_trans (graphemePrev_le _ _) h
      | exact wordNext_le_length _ _ h
      | exact graphemeNext_le_length _ _
      | (rw [strErase_length]; omega)
      | (rw [strReplace_length]; simp only [List.length_take, List.length_drop]; omega)
      | (split <;>
          first
            | exact h
            | exact popupPush_cursorInv env s _ h
            | exact Nat.min_le_right _ _
            | (rw [strErase_length]; omega)
            | (rw [strReplace_length]; simp only [List.length_take, List.length_drop]; omega))
  rw [if_neg hv18]
  by_cases hv19 : vkey = VK_F10
  · rw [if_pos hv19]
    repeat' split
    all_goals try dsimp only
    all_goals
      first
      | exact h
      | exact Nat.le_refl _
      | exact Nat.zero_le _
      | exact Nat.min_le_right _ _
      | exact popupPush_cursorInv env s _ h
      | exact handleChar_cursorInv env s 26 m h
      | exact Nat.le_trans (wordPrev_le _ _) h
      | exact Nat.le_trans (graphemePrev_le _ _) h
      | exact wordNext_le_length _ _ h
      | exact graphemeNext_le_length _ _
      | (rw [strErase_length]; omega)
      | (rw [strReplace_length]; simp only [List.length_take, List.length_drop]; omega)
      | (split <;>
          first
            | exact h
            | exact popupPush_cursorInv env s _ h
            | exact Nat.min_le_right _ _
            | (rw [strErase_length]; omega)
            | (rw [strReplace_length]; simp only [List.length_take, List.length_drop]; omega))
  rw [if_neg hv19]
  exact h

theorem drawCommandList_cursorInv (s : State) (p : Popup) (h : CursorInv s) :
    CursorInv (_popupDrawCommandList s p) := by
  unfold CursorInv at *
  unfold _popupDrawCommandList setBack
  dsimp only
  exact h

theorem copyToChar_cursorInv (s : State) (wch : WChar) (vkey : Nat) (h : CursorInv s) :
    CursorInv (_popupHandleCopyToCharInput s wch vkey) := by
  unfold CursorInv at *
  unfold _popupHandleCopyToCharInput _popupsDone _markAsDirty
  dsimp only
  split
  · split <;> exact h
  · split
    · next idx heq =>
      dsimp only
      have hb := findFrom_bounds _ _ _ _ heq
      rw [strReplace_length]
      simp only [List.length_take, List.length_drop]
      omega
    · exact h

theorem copyFromChar_cursorInv (s : State) (wch : WChar) (vkey : Nat) (h : CursorInv s) :
    CursorInv (_popupHandleCopyFromCharInput s wch vkey) := by
  unfold CursorInv at *
  unfold _popupHandleCopyFromCharInput _popupsDone _markAsDirty
  dsimp only
  split
  · split <;> exact h
  · dsimp only
    rw [strErase_length]
    omega

theorem commandNumberInput_cursorInv (s : State) (popup : Popup) (wch : WChar) (vkey : Nat)
    (s' : State) (h : CursorInv s)
    (he : _popupHandleCommandNumberInput s popup wch vkey = .ok s') : CursorInv s' := by
  unfold CursorInv at *
  unfold _popupHandleCommandNumberInput _popupsDone _replaceBuffer _markAsDirty setBack at he
  dsimp only at he
  split at he
  · simp only [Except.ok.injEq] at he
    subst he
    split <;> exact h
  · split at he
    · split at he
      · exact Except.noConfusion he
      · simp only [Except.ok.injEq] at he
        subst he
        dsimp only
        exact Nat.le_refl _
    · split at he
      · simp only [Except.ok.injEq] at he
        subst he
        split <;> exact h
      · split at he
        · simp only [Except.ok.injEq] at he
          subst he
          split <;> exact h
        · simp only [Except.ok.injEq] at he
          subst he
          exact h

theorem commandListInput_cursorInv (env : Env) (s : State) (popup : Popup) (wch : WChar)
    (vkey m : Nat) (h : CursorInv s) :
    CursorInv (_popupHandleCommandListInput env s popup wch vkey m).1 := by
  unfold CursorInv at *
  unfold _popupHandleCommandListInput
  by_cases hc1 : wch = UNICODE_CARRIAGERETURN
  · rw [if_pos hc1]
    exact handleChar_cr_cursorInv env _ m
  rw [if_neg hc1]
  by_cases hc2 : vkey = VK_ESCAPE
  · rw [if_pos hc2]
    exact h
  rw [if_neg hc2]
  by_cases hc3 : vkey = VK_F9
  · rw [if_pos hc3]
    exact popupPush_cursorInv env s _ h
  rw [if_neg hc3]
  by_cases hc4 : vkey = VK_DELETE
  · rw [if_pos hc4]
    dsimp only
    split
    · exact h
    · exact drawCommandList_cursorInv _ _ h
  rw [if_neg hc4]
  by_cases hc5 : vkey = VK_LEFT ∨ vkey = VK_RIGHT
  · rw [if_pos hc5]
    exact Nat.le_refl _
  rw [if_neg hc5]
  by_cases hc6 : vkey = VK_UP
  · rw [if_pos hc6]
    dsimp only
    split <;> exact drawCommandList_cursorInv _ _ h
  rw [if_neg hc6]
  by_cases hc7 : vkey = VK_DOWN
  · rw [if_pos hc7]
    dsimp only
    split <;> exact drawCommandList_cursorInv _ _ h
  rw [if_neg hc7]
  by_cases hc8 : vkey = VK_HOME
  · rw [if_pos hc8]
    exact drawCommandList_cursorInv _ _ h
  rw [if_neg hc8]
  by_cases hc9 : vkey = VK_END
  · rw [if_pos hc9]
    exact drawCommandList_cursorInv _ _ h
  rw [if_neg hc9]
  by_cases hc10 : vkey = VK_PRIOR
  · rw [if_pos hc10]
    exact drawCommandList_cursorInv _ _ h
  rw [if_neg hc10]
  by_cases hc11 : vkey = VK_NEXT
  · rw [if_pos hc11]
    exact drawCommandList_cursorInv _ _ h
  rw [if_neg hc11]
  exact h

theorem popupHandleInput_cursorInv (env : Env) (s : State) (wch : WChar) (vkey m : Nat)
    (s' : State) (d : Bool) (h : CursorInv s)
    (he : _popupHandleInput env s wch vkey m = .ok (s', d)) : CursorInv s' := by
  unfold _popupHandleInput at he
  split at he
  · simp only [Except.ok.injEq, Prod.mk.injEq] at he
    obtain ⟨he1, -⟩ := he
    subst he1
    exact h
  · next popup heqLast =>
    split at he
    · simp only [Except.ok.injEq, Prod.mk.injEq] at he
      obtain ⟨he1, -⟩ := he
      subst he1
      exact copyToChar_cursorInv s wch vkey h
    · simp only [Except.ok.injEq, Prod.mk.injEq] at he
      obtain ⟨he1, -⟩ := he
      subst he1
      exact copyFromChar_cursorInv s wch vkey h
    · cases hcn : _popupHandleCommandNumberInput s popup wch vkey with
      | error e =>
        rw [hcn] at he
        exact Except.noConfusion he
      | ok s2 =>
        rw [hcn] at he
        simp only [Except.map, Except.ok.injEq, Prod.mk.injEq] at he
        obtain ⟨he1, -⟩ := he
        subst he1
        exact commandNumberInput_cursorInv s popup wch vkey s2 h hcn
    · simp only [Except.ok.injEq, Prod.ext_iff] at he
      obtain ⟨he1, -⟩ := he
      subst he1
      exact commandListInput_cursorInv env s popup wch vkey m h

theorem readCharStep_cursorInv (env : Env) (s : State) (ev : InputEvent) (s' : State) (d : Bool)
    (h : CursorInv s) (he : _readCharStep env s ev = .ok (s', d)) : CursorInv s' := by
  unfold _readCharStep at he
  split at he
  · split at he
    · simp only [Except.ok.injEq, Prod.mk.injEq] at he
      obtain ⟨he1, -⟩ := he
      subst he1
      exact handleVkey_cursorInv env s _ _ h
    · simp only [Except.ok.injEq, Prod.ext_iff] at he
      obtain ⟨he1, -⟩ := he
      subst he1
      exact handleChar_cursorInv env s _ _ h
  · split at he <;> exact popupHandleInput_cursorInv env s _ _ _ s' d h he

theorem readCharInputLoop_cursorInv (env : Env) :
    ∀ (evs : List InputEvent) (s s' : State) (d : Bool),
      CursorInv s → _readCharInputLoop env s evs = .ok (s', d) → CursorInv s'
  | [], s, s', d, h, he => by
    unfold _readCharInputLoop at he
    simp only [Except.ok.injEq, Prod.mk.injEq] at he
    obtain ⟨he1, -⟩ := he
    subst he1
    exact h
  | ev :: rest, s, s', d, h, he => by
    unfold _readCharInputLoop at he
    cases hstep : _readCharStep env s ev with
    | error e =>
      rw [hstep] at he
      exact Except.noConfusion he
    | ok p =>
      obtain ⟨s1, done⟩ := p
      rw [hstep] at he
      dsimp only at he
      by_cases hd : done = true
      · rw [if_pos hd] at he
        simp only [Except.ok.injEq, Prod.mk.injEq] at he
        obtain ⟨he1, -⟩ := he
        subst he1
        exact readCharStep_cursorInv env s ev s1 done h hstep
      · rw [if_neg hd] at he
        exact readCharInputLoop_cursorInv env rest s1 s' d
          (readCharStep_cursorInv env s ev s1 done h hstep) he

theorem Read_cursorInv (env : Env) (s : State) (evs : List InputEvent) (s' : State) (d : Bool)
    (h : CursorInv s) (he : Read env s evs = .ok (s', d)) : CursorInv s' := by
  unfold Read at he
  cases hl : _readCharInputLoop env s evs with
  | error e =>
    rw [hl] at he
    exact Except.noConfusion he
  | ok p =>
    obtain ⟨s1, d1⟩ := p
    rw [hl] at he
    simp only [Except.ok.injEq, Prod.mk.injEq] at he
    obtain ⟨he1, -⟩ := he
    subst he1
    exact flushBuffer_cursorInv env s1

theorem stackOK_last_cl (ps : List Popup) (q : Popup) (h : popupStackOK ps = true)
    (hq : ps.getLast? = some q) (hk : q.kind = .CommandList) : ps = [q] := by
  match ps with
  | [] => simp at hq
  | [a] =>
    simp only [List.getLast?_singleton, Option.some.injEq] at hq
    rw [hq]
  | [a, b] =>
    simp only [popupStackOK, Bool.and_eq_true, beq_iff_eq] at h
    have hb : b = q := by simpa using hq
    rw [hb] at h
    rw [hk] at h
    exact absurd h.2 (by simp)
  | a :: b :: c :: t =>
    simp [popupStackOK] at h

theorem setBack_popupStackOK (s : State) (p q : Popup) (hq : s.popups.getLast? = some q)
    (hk : p.kind = q.kind) (h : popupStackOK s.popups = true) :
    popupStackOK (setBack s p).popups = true := by
  unfold setBack
  dsimp only
  match hps : s.popups with
  | [] => simp [hps] at hq
  | [a] =>
    show popupStackOK [p] = true
    rfl
  | [a, b] =>
    rw [hps] at hq h
    have hb : b = q := by simpa using hq
    show popupStackOK [a, p] = true
    simp only [popupStackOK, Bool.and_eq_true, beq_iff_eq] at h ⊢
    refine ⟨h.1, ?_⟩
    rw [hk, ← hb]
    exact h.2
  | a :: b :: c :: t =>
    rw [hps] at h
    simp [popupStackOK] at h

theorem drawCommandList_popupStackOK (s : State) (p q : Popup) (hq : s.popups.getLast? = some q)
    (hk : p.kind = q.kind) (h : popupStackOK s.popups = true) :
    popupStackOK (_popupDrawCommandList s p).popups = true := by
  unfold _popupDrawCommandList
  dsimp only
  exact setBack_popupStackOK s _ q hq hk h

theorem popupPush_popups_of_empty (env : Env) (s : State) (k : PopupKind) (hp : s.popups = []) :
    popupStackOK (_popupPush env s k).popups = true := by
  have hf : (_flushBuffer env s).popups = [] := by rw [flushBuffer_popups]; exact hp
  unfold _popupPush _popupsDone _popupDrawCommandList setBack
  dsimp only
  split
  · rw [hp]
    rfl
  · split
    · rfl
    · split <;> (rw [hf]; rfl)

theorem popupPush_cn_on_cl (env : Env) (s : State) (a : Popup) (hp : s.popups = [a])
    (hk : a.kind = PopupKind.CommandList) :
    popupStackOK (_popupPush env s .CommandNumber).popups = true := by
  have hf : (_flushBuffer env s).popups = [a] := by rw [flushBuffer_popups]; exact hp
  unfold _popupPush _popupsDone
  dsimp only
  split
  · rw [hp]
    rfl
  · split
    · rfl
    · rw [hf]
      show popupStackOK [a, _] = true
      simp only [popupStackOK, Bool.and_eq_true, beq_iff_eq]
      exact ⟨hk, trivial⟩

set_option maxHeartbeats 2000000 in
set_option linter.unreachableTactic false in
set_option linter.unusedTactic false in
theorem handleVkey_popups_cases (env : Env) (s : State) (vkey m : Nat) :
    (_handleVkey env s vkey m).popups = s.popups ∨
      ∃ k, _handleVkey env s vkey m = _popupPush env s k := by
  unfold _handleVkey
  by_cases hv1 : vkey = VK_ESCAPE
  · rw [if_pos hv1]
    repeat' split
    all_goals try dsimp only
    all_goals
      first
      | (left; rfl)
      | (left; exact handleChar_popups env s 26 m)
      | (right; exact ⟨_, rfl⟩)
      | (split <;>
          first
          | (left; rfl)
          | (right; exact ⟨_, rfl⟩)
          | (split <;>
              first
              | (left; rfl)
              | (right; exact ⟨_, rfl⟩)))
      | (rename_i hh heq
         cases hr : rightArrowPaste hh.getLastCommand s.buffer (hh.getLastCommand.length + 1) 0 0 with
         | none => left; rfl
         | some pair =>
           obtain ⟨cmdBeg, cmdEnd⟩ := pair
           left
           rfl)
  rw [if_neg hv1]
  by_cases hv2 : vkey = VK_HOME
  · rw [if_pos hv2]
    repeat' split
    all_goals try dsimp only
    all_goals
      first
      | (left; rfl)
      | (left; exact handleChar_popups env s 26 m)
      | (right; exact ⟨_, rfl⟩)
      | (split <;>
          first
          | (left; rfl)
          | (right; exact ⟨_, rfl⟩)
          | (split <;>
              first
              | (left; rfl)
              | (right; exact ⟨_, rfl⟩)))
      | (rename_i hh heq
         cases hr : rightArrowPaste hh.getLastCommand s.buffer (hh.getLastCommand.length + 1) 0 0 with
         | none => left; rfl
         | some pair =>
           obtain ⟨cmdBeg, cmdEnd⟩ := pair
           left
           rfl)
  rw [if_neg hv2]
  by_cases hv3 : vkey = VK_END
  · rw [if_pos hv3]
    repeat' split
    all_goals try dsimp only
    all_goals
      first
      | (left; rfl)
      | (left; exact handleChar_popups env s 26 m)
      | (right; exact ⟨_, rfl⟩)
      | (split <;>
          first
          | (left; rfl)
          | (right; exact ⟨_, rfl⟩)
          | (split <;>
              first
              | (left; rfl)
              | (right; exact ⟨_, rfl⟩)))
      | (rename_i hh heq
         cases hr : rightArrowPaste hh.getLastCommand s.buffer (hh.getLastCommand.length + 1) 0 0 with
         | none => left; rfl
         | some pair =>
           obtain ⟨cmdBeg, cmdEnd⟩ := pair
           left
           rfl)
  rw [if_neg hv3]
  by_cases hv4 : vkey = VK_LEFT
  · rw [if_pos hv4]
    repeat' split
    all_goals try dsimp only
    all_goals
      first
      | (left; rfl)
      | (left; exact handleChar_popups env s 26 m)
      | (right; exact ⟨_, rfl⟩)
      | (split <;>
          first
          | (left; rfl)
          | (right; exact ⟨_, rfl⟩)
          | (split <;>
              first
              | (left; rfl)
              | (right; exact ⟨_, rfl⟩)))
      | (rename_i hh heq
         cases hr : rightArrowPaste hh.getLastCommand s.buffer (hh.getLastCommand.length + 1) 0 0 with
         | none => left; rfl
         | some pair =>
           obtain ⟨cmdBeg, cmdEnd⟩ := pair
           left
           rfl)
  rw [if_neg hv4]
  by_cases hv5 : vkey = VK_F1 ∨ vkey = VK_RIGHT
  · rw [if_pos hv5]
    repeat' split
    all_goals try dsimp only
    all_goals
      first
      | (left; rfl)
      | (left; exact handleChar_popups env s 26 m)
      | (right; exact ⟨_, rfl⟩)
      | (split <;>
          first
          | (left; rfl)
          | (right; exact ⟨_, rfl⟩)
          | (split <;>
              first
              | (left; rfl)
              | (right; exact ⟨_, rfl⟩)))
      | (rename_i hh heq
         cases hr : rightArrowPaste hh.getLastCommand s.buffer (hh.getLastCommand.length + 1) 0 0 with
         | none => left; rfl
         | some pair =>
           obtain ⟨cmdBeg, cmdEnd⟩ := pair
           left
           rfl)
  rw [if_neg hv5]
  by_cases hv6 : vkey = VK_INSERT
  · rw [if_pos hv6]
    repeat' split
    all_goals try dsimp only
    all_goals
      first
      | (left; rfl)
      | (left; exact handleChar_popups env s 26 m)
      | (right; exact ⟨_, rfl⟩)
      | (split <;>
          first
          | (left; rfl)
          | (right; exact ⟨_, rfl⟩)
          | (split <;>
              first
              | (left; rfl)
              | (right; exact ⟨_, rfl⟩)))
      | (rename_i hh heq
         cases hr : rightArrowPaste hh.getLastCommand s.buffer (hh.getLastCommand.length + 1) 0 0 with
         | none => left; rfl
         | some pair =>
           obtain ⟨cmdBeg, cmdEnd⟩ := pair
           left
           rfl)
  rw [if_neg hv6]
  by_cases hv7 : vkey = VK_DELETE
  · rw [if_pos hv7]
    repeat' split
    all_goals try dsimp only
    all_goals
      first
      | (left; rfl)
      | (left; exact handleChar_popups env s 26 m)
      | (right; exact ⟨_, rfl⟩)
      | (split <;>
          first
          | (left; rfl)
          | (right; exact ⟨_, rfl⟩)
          | (split <;>
              first
              | (left; rfl)
              | (right; exact ⟨_, rfl⟩)))
      | (rename_i hh heq
         cases hr : rightArrowPaste hh.getLastCommand s.buffer (hh.getLastCommand.length + 1) 0 0 with
         | none => left; rfl
         | some pair =>
           obtain ⟨cmdBeg, cmdEnd⟩ := pair
           left
           rfl)
  rw [if_neg hv7]
  by_cases hv8 : vkey = VK_UP ∨ vkey = VK_F5
  · rw [if_pos hv8]
    repeat' split
    all_goals try dsimp only
    all_goals
      first
      | (left; rfl)
      | (left; exact handleChar_popups env s 26 m)
      | (right; exact ⟨_, rfl⟩)
      | (split <;>
          first
          | (left; rfl)
          | (right; exact ⟨_, rfl⟩)
          | (split <;>
              first
              | (left; rfl)
              | (right; exact ⟨_, rfl⟩)))
      | (rename_i hh heq
         cases hr : rightArrowPaste hh.getLastCommand s.buffer (hh.getLastCommand.length + 1) 0 0 with
         | none => left; rfl
         | some pair =>
           obtain ⟨cmdBeg, cmdEnd⟩ := pair
           left
           rfl)
  rw [if_neg hv8]
  by_cases hv9 : vkey = VK_DOWN
  · rw [if_pos hv9]
    repeat' split
    all_goals try dsimp only
    all_goals
      first
      | (left; rfl)
      | (left; exact handleChar_popups env s 26 m)
      | (right; exact ⟨_, rfl⟩)
      | (split <;>
          first
          | (left; rfl)
          | (right; exact ⟨_, rfl⟩)
          | (split <;>
              first
              | (left; rfl)
              | (right; exact ⟨_, rfl⟩)))
      | (rename_i hh heq
         cases hr : rightArrowPaste hh.getLastCommand s.buffer (hh.getLastCommand.length + 1) 0 0 with
         | none => left; rfl
         | some pair =>
           obtain ⟨cmdBeg, cmdEnd⟩ := pair
           left
           rfl)
  rw [if_neg hv9]
  by_cases hv10 : vkey = VK_PRIOR
  · rw [if_pos hv10]
    repeat' split
    all_goals try dsimp only
    all_goals
      first
      | (left; rfl)
      | (left; exact handleChar_popups env s 26 m)
      | (right; exact ⟨_, rfl⟩)
      | (split <;>
          first
          | (left; rfl)
          | (right; exact ⟨_, rfl⟩)
          | (split <;>
              first
              | (left; rfl)
              | (right; exact ⟨_, rfl⟩)))
      | (rename_i hh heq
         cases hr : rightArrowPaste hh.getLastCommand s.buffer (hh.getLastCommand.length + 1) 0 0 with
         | none => left; rfl
         | some pair =>
           obtain ⟨cmdBeg, cmdEnd⟩ := pair
           left
           rfl)
  rw [if_neg hv10]
  by_cases hv11 : vkey = VK_NEXT
  · rw [if_pos hv11]
    repeat' split
    all_goals try dsimp only
    all_goals
      first
      | (left; rfl)
      | (left; exact handleChar_popups env s 26 m)
      | (right; exact ⟨_, rfl⟩)
      | (split <;>
          first
          | (left; rfl)
          | (right; exact ⟨_, rfl⟩)
          | (split <;>
              first
              | (left; rfl)
              | (right; exact ⟨_, rfl⟩)))
      | (rename_i hh heq
         cases hr : rightArrowPaste hh.getLastCommand s.buffer (hh.getLastCommand.length + 1) 0 0 with
         | none => left; rfl
         | some pair =>
           obtain ⟨cmdBeg, cmdEnd⟩ := pair
           left
           rfl)
  rw [if_neg hv11]
  by_cases hv12 : vkey = VK_F2
  · rw [if_pos hv12]
    repeat' split
    all_goals try dsimp only
    all_goals
      first
      | (left; rfl)
      | (left; exact handleChar_popups env s 26 m)
      | (right; exact ⟨_, rfl⟩)
      | (split <;>
          first
          | (left; rfl)
          | (right; exact ⟨_, rfl⟩)
          | (split <;>
              first
              | (left; rfl)
              | (right; exact ⟨_, rfl⟩)))
      | (rename_i hh heq
         cases hr : rightArrowPaste hh.getLastCommand s.buffer (hh.getLastCommand.length + 1) 0 0 with
         | none => left; rfl
         | some pair =>
           obtain ⟨cmdBeg, cmdEnd⟩ := pair
           left
           rfl)
  rw [if_neg hv12]
  by_cases hv13 : vkey = VK_F3
  · rw [if_pos hv13]
    repeat' split
    all_goals try dsimp only
    all_goals
      first
      | (left; rfl)
      | (left; exact handleChar_popups env s 26 m)
      | (right; exact ⟨_, rfl⟩)
      | (split <;>
          first
          | (left; rfl)
          | (right; exact ⟨_, rfl⟩)
          | (split <;>
              first
              | (left; rfl)
              | (right; exact ⟨_, rfl⟩)))
      | (rename_i hh heq
         cases hr : rightArrowPaste hh.getLastCommand s.buffer (hh.getLastCommand.length + 1) 0 0 with
         | none => left; rfl
         | some pair =>
           obtain ⟨cmdBeg, cmdEnd⟩ := pair
           left
           rfl)
  rw [if_neg hv13]
  by_cases hv14 : vkey = VK_F4
  · rw [if_pos hv14]
    repeat' split
    all_goals try dsimp only
    all_goals
      first
      | (left; rfl)
      | (left; exact handleChar_popups env s 26 m)
      | (right; exact ⟨_, rfl⟩)
      | (split <;>
          first
          | (left; rfl)
          | (right; exact ⟨_, rfl⟩)
          | (split <;>
              first
              | (left; rfl)
              | (right; exact ⟨_, rfl⟩)))
      | (rename_i hh heq
         cases hr : rightArrowPaste hh.getLastCommand s.buffer (hh.getLastCommand.length + 1) 0 0 with
         | none => left; rfl
         | some pair =>
           obtain ⟨cmdBeg, cmdEnd⟩ := pair
           left
           rfl)
  rw [if_neg hv14]
  by_cases hv15 : vkey = VK_F6
  · rw [if_pos hv15]
    repeat' split
    all_goals try dsimp only
    all_goals
      first
      | (left; rfl)
      | (left; exact handleChar_popups env s 26 m)
      | (right; exact ⟨_, rfl⟩)
      | (split <;>
          first
          | (left; rfl)
          | (right; exact ⟨_, rfl⟩)
          | (split <;>
              first
              | (left; rfl)
              | (right; exact ⟨_, rfl⟩)))
      | (rename_i hh heq
         cases hr : rightArrowPaste hh.getLastCommand s.buffer (hh.getLastCommand.length + 1) 0 0 with
         | none => left; rfl
         | some pair =>
           obtain ⟨cmdBeg, cmdEnd⟩ := pair
           left
           rfl)
  rw [if_neg hv15]
  by_cases hv16 : vkey = VK_F7
  · rw [if_pos hv16]
    repeat' split
    all_goals try dsimp only
    all_goals
      first
      | (left; rfl)
      | (left; exact handleChar_popups env s 26 m)
      | (right; exact ⟨_, rfl⟩)
      | (split <;>
          first
          | (left; rfl)
          | (right; exact ⟨_, rfl⟩)
          | (split <;>
              first
              | (left; rfl)
              | (right; exact ⟨_, rfl⟩)))
      | (rename_i hh heq
         cases hr : rightArrowPaste hh.getLastCommand s.buffer (hh.getLastCommand.length + 1) 0 0 with
         | none => left; rfl
         | some pair =>
           obtain ⟨cmdBeg, cmdEnd⟩ := pair
           left
           rfl)
  rw [if_neg hv16]
  by_cases hv17 : vkey = VK_F8
  · rw [if_pos hv17]
    repeat' split
    all_goals try dsimp only
    all_goals
      first
      | (left; rfl)
      | (left; exact handleChar_popups env s 26 m)
      | (right; exact ⟨_, rfl⟩)
      | (split <;>
          first
          | (left; rfl)
          | (right; exact ⟨_, rfl⟩)
          | (split <;>
              first
              | (left; rfl)
              | (right; exact ⟨_, rfl⟩)))
      | (rename_i hh heq
         cases hr : rightArrowPaste hh.getLastCommand s.buffer (hh.getLastCommand.length + 1) 0 0 with
         | none => left; rfl
         | some pair =>
           obtain ⟨cmdBeg, cmdEnd⟩ := pair
           left
           rfl)
  rw [if_neg hv17]
  by_cases hv18 : vkey = VK_F9
  · rw [if_pos hv18]
    repeat' split
    all_goals try dsimp only
    all_goals
      first
      | (left; rfl)
      | (left; exact handleChar_popups env s 26 m)
      | (right; exact ⟨_, rfl⟩)
      | (split <;>
          first
          | (left; rfl)
          | (right; exact ⟨_, rfl⟩)
          | (split <;>
              first
              | (left; rfl)
              | (right; exact ⟨_, rfl⟩)))
      | (rename_i hh heq
         cases hr : rightArrowPaste hh.getLastCommand s.buffer (hh.getLastCommand.length + 1) 0 0 with
         | none => left; rfl
         | some pair =>
           obtain ⟨cmdBeg, cmdEnd⟩ := pair
           left
           rfl)
  rw [if_neg hv18]
  by_cases hv19 : vkey = VK_F10
  · rw [if_pos hv19]
    repeat' split
    all_goals try dsimp only
    all_goals
      first
      | (left; rfl)
      | (left; exact handleChar_popups env s 26 m)
      | (right; exact ⟨_, rfl⟩)
      | (split <;>
          first
          | (left; rfl)
          | (right; exact ⟨_, rfl⟩)
          | (split <;>
              first
              | (left; rfl)
              | (right; exact ⟨_, rfl⟩)))
      | (rename_i hh heq
         cases hr : rightArrowPaste hh.getLastCommand s.buffer (hh.getLastCommand.length + 1) 0 0 with
         | none => left; rfl
         | some pair =>
           obtain ⟨cmdBeg, cmdEnd⟩ := pair
           left
           rfl)
  rw [if_neg hv19]
  left
  rfl

theorem handleVkey_popupsOK (env : Env) (s : State) (vkey m : Nat) (hp : s.popups = []) :
    popupStackOK (_handleVkey env s vkey m).popups = true := by
  rcases handleVkey_popups_cases env s vkey m with hcase | ⟨k, hcase⟩
  · rw [hcase, hp]
    rfl
  · rw [hcase]
    exact popupPush_popups_of_empty env s k hp

theorem copyToChar_popupsOK (s : State) (wch : WChar) (vkey : Nat)
    (h : popupStackOK s.popups = true) :
    popupStackOK (_popupHandleCopyToCharInput s wch vkey).popups = true := by
  unfold _popupHandleCopyToCharInput _popupsDone _markAsDirty
  dsimp only
  split
  · split
    · rfl
    · exact h
  · split <;> rfl

theorem copyFromChar_popupsOK (s : State) (wch : WChar) (vkey : Nat)
    (h : popupStackOK s.popups = true) :
    popupStackOK (_popupHandleCopyFromCharInput s wch vkey).popups = true := by
  unfold _popupHandleCopyFromCharInput _popupsDone _markAsDirty
  dsimp only
  split
  · split
    · rfl
    · exact h
  · rfl

theorem commandNumberInput_popupsOK (s : State) (popup : Popup) (wch : WChar) (vkey : Nat)
    (s' : State) (hq : s.popups.getLast? = some popup) (h : popupStackOK s.popups = true)
    (he : _popupHandleCommandNumberInput s popup wch vkey = .ok s') :
    popupStackOK s'.popups = true := by
  unfold _popupHandleCommandNumberInput _popupsDone _replaceBuffer _markAsDirty at he
  dsimp only at he
  split at he
  · simp only [Except.ok.injEq] at he
    subst he
    split
    · rfl
    · exact h
  · split at he
    · split at he
      · exact Except.noConfusion he
      · simp only [Except.ok.injEq] at he
        subst he
        rfl
    · split at he
      · simp only [Except.ok.injEq] at he
        subst he
        split
        · exact setBack_popupStackOK s _ popup hq rfl h
        · exact h
      · split at he
        · simp only [Except.ok.injEq] at he
          subst he
          split
          · exact setBack_popupStackOK s _ popup hq rfl h
          · exact h
        · simp only [Except.ok.injEq] at he
          subst he
          exact h

theorem commandListInput_popupsOK (env : Env) (s : State) (popup : Popup) (wch : WChar)
    (vkey m : Nat) (hq : s.popups.getLast? = some popup) (hk : popup.kind = .CommandList)
    (h : popupStackOK s.popups = true) :
    popupStackOK (_popupHandleCommandListInput env s popup wch vkey m).1.popups = true := by
  unfold _popupHandleCommandListInput _popupsDone _replaceBuffer
  by_cases hc1 : wch = UNICODE_CARRIAGERETURN
  · rw [if_pos hc1]
    dsimp only
    rw [handleChar_popups]
    rfl
  rw [if_neg hc1]
  by_cases hc2 : vkey = VK_ESCAPE
  · rw [if_pos hc2]
    rfl
  rw [if_neg hc2]
  by_cases hc3 : vkey = VK_F9
  · rw [if_pos hc3]
    exact popupPush_cn_on_cl env s popup (stackOK_last_cl s.popups popup h hq hk) hk
  rw [if_neg hc3]
  by_cases hc4 : vkey = VK_DELETE
  · rw [if_pos hc4]
    dsimp only
    split
    · rfl
    · exact drawCommandList_popupStackOK _ popup popup hq rfl h
  rw [if_neg hc4]
  by_cases hc5 : vkey = VK_LEFT ∨ vkey = VK_RIGHT
  · rw [if_pos hc5]
    rfl
  rw [if_neg hc5]
  by_cases hc6 : vkey = VK_UP
  · rw [if_pos hc6]
    dsimp only
    split <;> exact drawCommandList_popupStackOK _ _ popup hq rfl h
  rw [if_neg hc6]
  by_cases hc7 : vkey = VK_DOWN
  · rw [if_pos hc7]
    dsimp only
    split <;> exact drawCommandList_popupStackOK _ _ popup hq rfl h
  rw [if_neg hc7]
  by_cases hc8 : vkey = VK_HOME
  · rw [if_pos hc8]
    exact drawCommandList_popupStackOK _ _ popup hq rfl h
  rw [if_neg hc8]
  by_cases hc9 : vkey = VK_END
  · rw [if_pos hc9]
    exact drawCommandList_popupStackOK _ _ popup hq rfl h
  rw [if_neg hc9]
  by_cases hc10 : vkey = VK_PRIOR
  · rw [if_pos hc10]
    exact drawCommandList_popupStackOK _ _ popup hq rfl h
  rw [if_neg hc10]
  by_cases hc11 : vkey = VK_NEXT
  · rw [if_pos hc11]
    exact drawCommandList_popupStackOK _ _ popup hq rfl h
  rw [if_neg hc11]
  exact h

theorem popupHandleInput_popupsOK (env : Env) (s : State) (wch : WChar) (vkey m : Nat)
    (s' : State) (d : Bool) (h : popupStackOK s.popups = true)
    (he : _popupHandleInput env s wch vkey m = .ok (s', d)) :
    popupStackOK s'.popups = true := by
  unfold _popupHandleInput at he
  split at he
  · simp only [Except.ok.injEq, Prod.mk.injEq] at he
    obtain ⟨he1, -⟩ := he
    subst he1
    exact h
  · next popup heqLast =>
    split at he
    · simp only [Except.ok.injEq, Prod.mk.injEq] at he
      obtain ⟨he1, -⟩ := he
      subst he1
      exact copyToChar_popupsOK s wch vkey h
    · simp only [Except.ok.injEq, Prod.mk.injEq] at he
      obtain ⟨he1, -⟩ := he
      subst he1
      exact copyFromChar_popupsOK s wch vkey h
    · cases hcn : _popupHandleCommandNumberInput s popup wch vkey with
      | error e =>
        rw [hcn] at he
        exact Except.noConfusion he
      | ok s2 =>
        rw [hcn] at he
        simp only [Except.map, Except.ok.injEq, Prod.mk.injEq] at he
        obtain ⟨he1, -⟩ := he
        subst he1
        exact commandNumberInput_popupsOK s popup wch vkey s2 heqLast h hcn
    · next hkind =>
      simp only [Except.ok.injEq, Prod.ext_iff] at he
      obtain ⟨he1, -⟩ := he
      subst he1
      exact commandListInput_popupsOK env s popup wch vkey m heqLast hkind h

theorem readCharStep_popupsOK (env : Env) (s : State) (ev : InputEvent) (s' : State) (d : Bool)
    (h : popupStackOK s.popups = true) (he : _readCharStep env s ev = .ok (s', d)) :
    popupStackOK s'.popups = true := by
  unfold _readCharStep at he
  split at he
  · next hpe =>
    split at he
    · simp only [Except.ok.injEq, Prod.mk.injEq] at he
      obtain ⟨he1, -⟩ := he
      subst he1
      exact handleVkey_popupsOK env s _ _ hpe
    · simp only [Except.ok.injEq, Prod.ext_iff] at he
      obtain ⟨he1, -⟩ := he
      subst he1
      rw [handleChar_popups, hpe]
      rfl
  · split at he <;> exact popupHandleInput_popupsOK env s _ _ _ s' d h he

theorem readCharInputLoop_popupsOK (env : Env) :
    ∀ (evs : List InputEvent) (s s' : State) (d : Bool),
      popupStackOK s.popups = true → _readCharInputLoop env s evs = .ok (s', d) →
      popupStackOK s'.popups = true
  | [], s, s', d, h, he => by
    unfold _readCharInputLoop at he
    simp only [Except.ok.injEq, Prod.mk.injEq] at he
    obtain ⟨he1, -⟩ := he
    subst he1
    exact h
  | ev :: rest, s, s', d, h, he => by
    unfold _readCharInputLoop at he
    cases hstep : _readCharStep env s ev with
    | error e =>
      rw [hstep] at he
      exact Except.noConfusion he
    | ok p =>
      obtain ⟨s1, done⟩ := p
      rw [hstep] at he
      dsimp only at he
      by_cases hd : done = true
      · rw [if_pos hd] at he
        simp only [Except.ok.injEq, Prod.mk.injEq] at he
        obtain ⟨he1, -⟩ := he
        subst he1
        exact readCharStep_popupsOK env s ev s1 done h hstep
      · rw [if_neg hd] at he
        exact readCharInputLoop_popupsOK env rest s1 s' d
          (readCharStep_popupsOK env s ev s1 done h hstep) he

theorem Read_popupsOK (env : Env) (s : State) (evs : List InputEvent) (s' : State) (d : Bool)
    (h : popupStackOK s.popups = true) (he : Read env s evs = .ok (s', d)) :
    popupStackOK s'.popups = true := by
  unfold Read at he
  cases hl : _readCharInputLoop env s evs with
  | error e =>
    rw [hl] at he
    exact Except.noConfusion he
  | ok p =>
    obtain ⟨s1, d1⟩ := p
    rw [hl] at he
    simp only [Except.ok.injEq, Prod.mk.injEq] at he
    obtain ⟨he1, -⟩ := he
    subst he1
    rw [flushBuffer_popups]
    exact readCharInputLoop_popupsOK env evs s s1 d1 h hl

/-- C1 (counterexample): the caret need not sit on a grapheme boundary at a
suspension point.  Feeding `' '`, the combining mark U+0301, then Ctrl+Left to
an empty editor leaves the buffer `[0x20, 0x301]` with the caret at 1 when the
input queue runs dry (`done = false`): `_wordPrev` is not grapheme-aware and
parks the caret between the base cell and its combining mark, which is not a
grapheme boundary. -/
theorem c1_counterexample :
    (Read env0 state0 [.ch 32 0, .ch 769 0, .vk VK_LEFT LEFT_CTRL_PRESSED]).map
        (fun r => (r.1.buffer, r.1.bufferCursor, r.2)) =
      .ok ([32, 769], 1, false) ∧
    isGraphemeBoundary [32, 769] 1 = false :=
  ⟨rfl, rfl⟩

/-- C1 (amended): for every sequence of input tokens, after any handler
returns (equivalently, after `Read` over any token prefix) the caret satisfies
`0 ≤ caret ≤ length of the edit buffer`; the grapheme-boundary part of the
claim does not hold at every suspension point, because the word-wise motions
(Ctrl+Left/Right, Ctrl+Backspace, F8) are not grapheme-aware. -/
theorem c1_theorem (env : Env) (s : State) (evs : List InputEvent) (s' : State) (d : Bool)
    (h : s.bufferCursor ≤ s.buffer.length) (he : Read env s evs = .ok (s', d)) :
    s'.bufferCursor ≤ s'.buffer.length :=
  Read_cursorInv env s evs s' d h he

/-- C1 witness: the amended theorem applied to a one-character run. -/
theorem c1_witness :
    state0.bufferCursor ≤ state0.buffer.length ∧
      (_flushBuffer env0 (_handleChar env0 state0 104 0).1).bufferCursor ≤
        (_flushBuffer env0 (_handleChar env0 state0 104 0).1).buffer.length :=
  ⟨by decide, c1_theorem env0 state0 [.ch 104 0] _ false (by decide) rfl⟩

/-- C2 (counterexample): the round-trip inequalities fail.  On `"a  b"`
(`[97, 32, 32, 98]`) from position 2, `_wordNext (_wordPrev 2) = 3 > 2`; on
`"a b"` (`[97, 32, 98]`) from position 1, `_wordPrev (_wordNext 1) = 0 < 1`.
The two motions deliberately skip space runs on opposite sides, so the
compositions overshoot positions inside a space run. -/
theorem c2_counterexample :
    ¬(_wordNext [97, 32, 32, 98] (_wordPrev [97, 32, 32, 98] 2) ≤ 2) ∧
    ¬(1 ≤ _wordPrev [97, 32, 98] (_wordNext [97, 32, 98] 1)) := by
  decide

/-- C2 (amended): for every text and every position `i ≤ len`, the word
motions are monotone and stay in range: `word_left(i) ≤ i ≤ word_right(i)` and
`word_right(i) ≤ len` (and `0 ≤ word_left(i)` trivially); the round-trip
inequalities `word_right(word_left(i)) ≤ i` and `word_left(word_right(i)) ≥ i`
do not hold in general. -/
theorem c2_theorem (chars : List WChar) (i : Nat) (h : i ≤ chars.length) :
    _wordPrev chars i ≤ i ∧ i ≤ _wordNext chars i ∧ _wordNext chars i ≤ chars.length :=
  ⟨wordPrev_le chars i, wordNext_ge chars i, wordNext_le_length chars i h⟩

/-- C2 witness: the amended theorem at `"a b"`, position 2. -/
theorem c2_witness :
    2 ≤ ([97, 32, 98] : List WChar).length ∧
      (_wordPrev [97, 32, 98] 2 ≤ 2 ∧ 2 ≤ _wordNext [97, 32, 98] 2 ∧
        _wordNext [97, 32, 98] 2 ≤ ([97, 32, 98] : List WChar).length) :=
  ⟨by decide, c2_theorem [97, 32, 98] 2 (by decide)⟩

/-- C3: for every `wch < 0x20` whose bit is set in `ctrlWakeupMask`,
`_handleChar` flushes the echo, inserts `wch` at the caret with insert
semantics (independently of the insert-mode flag, which the right-hand side
never consults), advances the caret by one code unit, records the modifiers in
`controlKeyState`, and commits (`true`). -/
theorem c3_theorem (env : Env) (s : State) (wch : WChar) (m : Nat) (h1 : wch < 32)
    (h2 : s.ctrlWakeupMask &&& (1 <<< wch) ≠ 0) :
    _handleChar env s wch m =
      (let f := _flushBuffer env s
       ({ f with
           buffer := strInsert f.buffer f.bufferCursor wch
           bufferCursor := f.bufferCursor + 1
           controlKeyState := m }, true)) := by
  have h0 : s.ctrlWakeupMask ≠ 0 := by
    intro hz
    rw [hz] at h2
    simp at h2
  unfold _handleChar
  rw [if_pos ⟨h0, h1, h2⟩]

/-- C3 witness: tab (`0x9`) with `ctrlWakeupMask = 1 << 9`. -/
theorem c3_witness :
    ((9 : WChar) < 32 ∧
        ({ state0 with ctrlWakeupMask := 512 } : State).ctrlWakeupMask &&& (1 <<< 9) ≠ 0) ∧
      _handleChar env0 { state0 with ctrlWakeupMask := 512 } 9 SHIFT_PRESSED =
        (let f := _flushBuffer env0 { state0 with ctrlWakeupMask := 512 }
         ({ f with
             buffer := strInsert f.buffer f.bufferCursor 9
             bufferCursor := f.bufferCursor + 1
             controlKeyState := SHIFT_PRESSED }, true)) :=
  ⟨⟨by decide, by decide⟩,
    c3_theorem env0 { state0 with ctrlWakeupMask := 512 } 9 SHIFT_PRESSED (by decide) (by decide)⟩

/-- C4: when the carriage-return bit is not set in `ctrlWakeupMask`,
`_handleChar` on `'\r'` appends the newline suffix — `"\r\n"` under processed
input and `"\r"` otherwise — sets the caret to the end of the buffer, marks it
dirty, and commits (`true`). -/
theorem c4_theorem (env : Env) (s : State) (m : Nat)
    (h : s.ctrlWakeupMask &&& (1 <<< 13) = 0) :
    _newlineSuffix s = (if s.processedInput then [13, 10] else [13]) ∧
      _handleChar env s 13 m =
        ({ s with
            buffer := s.buffer ++ _newlineSuffix s
            bufferCursor := (s.buffer ++ _newlineSuffix s).length
            bufferDirty := true }, true) := by
  refine ⟨rfl, ?_⟩
  unfold _handleChar
  rw [if_neg (fun hcond => hcond.2.2 h)]
  have hcr : (13 : WChar) = UNICODE_CARRIAGERETURN := rfl
  rw [if_pos hcr]
  rfl

/-- C4 witness: carriage return in the default (processed-input) state. -/
theorem c4_witness :
    state0.ctrlWakeupMask &&& (1 <<< 13) = 0 ∧
      (_newlineSuffix state0 = (if state0.processedInput then [13, 10] else [13]) ∧
        _handleChar env0 state0 13 0 =
          ({ state0 with
              buffer := state0.buffer ++ _newlineSuffix state0
              bufferCursor := (state0.buffer ++ _newlineSuffix state0).length
              bufferDirty := true }, true)) :=
  ⟨by decide, c4_theorem env0 state0 0 (by decide)⟩

/-- C5: after every `_flushBuffer` call — echo enabled or not — the dirty flag
is false and `distanceCursor ≤ distanceEnd`, assuming the distances satisfied
that inequality beforehand (they do in every reachable state: the constructor
sets them equal and only `_flushBuffer` and `EraseBeforeResize` write them). -/
theorem c5_theorem (env : Env) (s : State) (h : s.distanceCursor ≤ s.distanceEnd) :
    (_flushBuffer env s).bufferDirty = false ∧
      (_flushBuffer env s).distanceCursor ≤ (_flushBuffer env s).distanceEnd := by
  unfold _flushBuffer
  dsimp only
  split
  · next hnd =>
    refine ⟨?_, h⟩
    simpa using hnd
  · split
    · exact ⟨rfl, by dsimp only; omega⟩
    · exact ⟨rfl, h⟩

/-- C5 witness: a dirty single-character buffer with equal distances. -/
theorem c5_witness :
    ({ state0 with bufferDirty := true, buffer := [104] } : State).distanceCursor ≤
        ({ state0 with bufferDirty := true, buffer := [104] } : State).distanceEnd ∧
      ((_flushBuffer env0 { state0 with bufferDirty := true, buffer := [104] }).bufferDirty =
          false ∧
        (_flushBuffer env0 { state0 with bufferDirty := true, buffer := [104] }).distanceCursor ≤
          (_flushBuffer env0 { state0 with bufferDirty := true, buffer := [104] }).distanceEnd) :=
  ⟨by decide, c5_theorem env0 { state0 with bufferDirty := true, buffer := [104] } (by decide)⟩

/-- C6: starting from an empty popup stack (the editor's initial state), every
state reachable through the input loop satisfies the popup-stack invariant:
at most two popups, and a two-deep stack is exactly a CommandNumber atop a
CommandList. -/
theorem c6_theorem (env : Env) (s : State) (evs : List InputEvent) (s' : State) (d : Bool)
    (hp : s.popups = []) (he : Read env s evs = .ok (s', d)) :
    popupStackOK s'.popups = true :=
  Read_popupsOK env s evs s' d (by rw [hp]; rfl) he

/-- C6 witness: pressing F7 with a one-entry history pushes a CommandList. -/
theorem c6_witness :
    ({ state0 with history := some ⟨[[104, 105]], 0⟩ } : State).popups = [] ∧
      popupStackOK
          (_flushBuffer env0
              (_handleVkey env0 { state0 with history := some ⟨[[104, 105]], 0⟩ } VK_F7 0)).popups =
        true :=
  ⟨rfl, c6_theorem env0 { state0 with history := some ⟨[[104, 105]], 0⟩ } [.vk VK_F7 0] _ false
    rfl rfl⟩

/-- C7 (counterexample): with zero accumulated digits, `Enter` in the
command-number popup does not parse-and-replace — `std::stoi` over the empty
digit buffer throws `invalid_argument` and the read aborts with an error, so
the popup stack is not dismissed and the edit buffer is untouched. -/
theorem c7_counterexample :
    _popupHandleInput env0
        { state0 with
            popups := [{ popup0 with kind := .CommandNumber }]
            history := some ⟨[[111, 110, 101]], 0⟩ }
        13 0 0 =
      .error .invalidArgument :=
  rfl

/-- C7 (amended): for one to five accumulated digits, `Enter` parses the
digit buffer as a decimal integer `n`, replaces the edit buffer with
`history.retrieve_nth(n)` (caret at end, dirty), and dismisses the popup
stack; with zero digits `std::stoi` throws instead. -/
theorem c7_theorem (s : State) (p : Popup) (hd : p.cnDigits ≠ []) :
    _popupHandleCommandNumberInput s p 13 0 =
      .ok
        (let h := s.history.getD default
         let r := h.retrieveNth ((p.cnDigits.foldl (fun acc c => acc * 10 + (c - 48)) 0 : Nat) : Int)
         { s with
             buffer := r.1
             bufferCursor := r.1.length
             bufferDirty := true
             history := some r.2
             popups := [] }) := by
  unfold _popupHandleCommandNumberInput
  rw [if_neg (fun hcond => hcond rfl)]
  have hcr : (13 : WChar) = UNICODE_CARRIAGERETURN := rfl
  rw [if_pos hcr]
  unfold stoiDigits
  rw [if_neg hd]
  rfl

/-- C7 witness: digit buffer `"0"` over the history `["one"]`. -/
theorem c7_witness :
    ({ popup0 with kind := .CommandNumber, cnDigits := [48] } : Popup).cnDigits ≠ [] ∧
      _popupHandleCommandNumberInput { state0 with history := some ⟨[[111, 110, 101]], 0⟩ }
          { popup0 with kind := .CommandNumber, cnDigits := [48] } 13 0 =
        .ok
          (let h := ({ state0 with history := some ⟨[[111, 110, 101]], 0⟩ } : State).history.getD
            default
           let r := h.retrieveNth
            ((([48] : List WChar).foldl (fun acc c => acc * 10 + (c - 48)) 0 : Nat) : Int)
           { { state0 with history := some ⟨[[111, 110, 101]], 0⟩ } with
               buffer := r.1
               bufferCursor := r.1.length
               bufferDirty := true
               history := some r.2
               popups := [] }) :=
  ⟨by decide,
    c7_theorem { state0 with history := some ⟨[[111, 110, 101]], 0⟩ }
      { popup0 with kind := .CommandNumber, cnDigits := [48] } (by decide)⟩

/-- C9: an editing virtual key never commits the read — `_readCharStep` on a
vkey token returns `done = false` unconditionally — and in the F6 case the
synthesized `\x1a` still runs the ctrl-wakeup path of `_handleChar` when bit
`0x1a` is set in `ctrlWakeupMask`: the character is inserted and
`controlKeyState` is overwritten, but the commit result is discarded. -/
theorem c9_theorem (env : Env) (s : State) (v m : Nat) (hp : s.popups = []) :
    (∃ s', _readCharStep env s (.vk v m) = .ok (s', false)) ∧
      (v = VK_F6 → s.ctrlWakeupMask &&& (1 <<< 26) ≠ 0 →
        _readCharStep env s (.vk v m) =
          .ok
            (let f := _flushBuffer env s
             ({ f with
                 buffer := strInsert f.buffer f.bufferCursor 26
                 bufferCursor := f.bufferCursor + 1
                 controlKeyState := m }, false))) := by
  constructor
  · refine ⟨_handleVkey env s v m, ?_⟩
    unfold _readCharStep
    rw [if_pos hp]
  · intro hv hm
    have h0 : s.ctrlWakeupMask ≠ 0 := by
      intro hz
      rw [hz] at hm
      simp at hm
    subst hv
    unfold _readCharStep
    rw [if_pos hp]
    dsimp only
    unfold _handleVkey
    repeat rw [if_neg (by decide)]
    rw [if_pos (rfl : VK_F6 = VK_F6)]
    unfold _handleChar
    rw [if_pos ⟨h0, by decide, hm⟩]

/-- C9 witness: F6 with bit `0x1a` set in the wakeup mask. -/
theorem c9_witness :
    ({ state0 with ctrlWakeupMask := 67108864 } : State).popups = [] ∧
      (∃ s', _readCharStep env0 { state0 with ctrlWakeupMask := 67108864 } (.vk VK_F6 5) =
        .ok (s', false)) ∧
      _readCharStep env0 { state0 with ctrlWakeupMask := 67108864 } (.vk VK_F6 5) =
        .ok
          (let f := _flushBuffer env0 { state0 with ctrlWakeupMask := 67108864 }
           ({ f with
               buffer := strInsert f.buffer f.bufferCursor 26
               bufferCursor := f.bufferCursor + 1
               controlKeyState := 5 }, false)) :=
  ⟨rfl, (c9_theorem env0 { state0 with ctrlWakeupMask := 67108864 } VK_F6 5 rfl).1,
    (c9_theorem env0 { state0 with ctrlWakeupMask := 67108864 } VK_F6 5 rfl).2 rfl (by decide)⟩

/-- C10: a character handed to the CopyToChar popup that does not occur in the
history's last command at or after the caret leaves the edit buffer, the
caret, and the dirty flag unchanged and dismisses the popup stack. -/
theorem c10_theorem (env : Env) (s : State) (p : Popup) (wch : WChar) (m : Nat)
    (hp : s.popups.getLast? = some p) (hk : p.kind = .CopyToChar)
    (hf : findFrom ((s.history.getD default).getLastCommand) wch s.bufferCursor = none) :
    _popupHandleInput env s wch 0 m = .ok ({ s with popups := [] }, false) := by
  unfold _popupHandleInput
  split
  · next hn =>
    rw [hp] at hn
    exact Option.noConfusion hn
  · next p2 hsome =>
    rw [hp] at hsome
    injection hsome with h2
    subst h2
    split
    · unfold _popupHandleCopyToCharInput
      rw [if_neg (fun hcond => hcond rfl)]
      dsimp only
      rw [hf]
      rfl
    · next hkk =>
      rw [hk] at hkk
      exact PopupKind.noConfusion hkk
    · next hkk =>
      rw [hk] at hkk
      exact PopupKind.noConfusion hkk
    · next hkk =>
      rw [hk] at hkk
      exact PopupKind.noConfusion hkk

/-- C10 witness: `'z'` against the last command `"one"` with the caret at 0. -/
theorem c10_witness :
    ({ state0 with popups := [popup0], history := some ⟨[[111, 110, 101]], 0⟩ } : State).popups.getLast? =
        some popup0 ∧
      popup0.kind = PopupKind.CopyToChar ∧
      findFrom
          ((({ state0 with popups := [popup0], history := some ⟨[[111, 110, 101]], 0⟩ } : State).history.getD
              default).getLastCommand)
          122
          ({ state0 with popups := [popup0], history := some ⟨[[111, 110, 101]], 0⟩ } : State).bufferCursor =
        none ∧
      _popupHandleInput env0 { state0 with popups := [popup0], history := some ⟨[[111, 110, 101]], 0⟩ }
          122 0 0 =
        .ok
          ({ { state0 with popups := [popup0], history := some ⟨[[111, 110, 101]], 0⟩ } with
              popups := [] }, false) :=
  ⟨rfl, rfl, by decide,
    c10_theorem env0 { state0 with popups := [popup0], history := some ⟨[[111, 110, 101]], 0⟩ }
      popup0 122 0 rfl rfl (by decide)⟩

theorem postLoop_multiline (env : Env) (s : State) (u : Bool) (exp : List WChar) (lc j : Nat)
    (heco : s.echoInput = true)
    (hsuf : endsWith s.buffer (_newlineSuffix s) = true)
    (halias : env.aliasMatch (s.buffer.take (s.buffer.length - (_newlineSuffix s).length))
        s.exeName = some (exp, lc))
    (hexp : exp ≠ []) (hlc : 1 < lc)
    (hj : findFrom exp UNICODE_LINEFEED 0 = some j) :
    (_handlePostCharInputLoop env s u).consumeArg = exp.take (j + 1) ∧
      (_handlePostCharInputLoop env s u).state.buffer = exp ∧
      (_handlePostCharInputLoop env s u).state.multilinePending =
        some (exp.drop (min exp.length (_handlePostCharInputLoop env s u).amountConsumed)) := by
  have hjb := findFrom_bounds exp UNICODE_LINEFEED 0 j hj
  have hmin : min exp.length (j + 1) = j + 1 := by omega
  unfold _handlePostCharInputLoop
  dsimp only
  simp only [heco, hsuf, halias, hj, if_true, ite_true]
  rw [if_pos hexp]
  rw [if_pos hlc]
  dsimp only
  simp only [hj]
  try rw [if_pos hlc]
  dsimp only
  rw [hmin]
  exact ⟨rfl, rfl, rfl⟩

theorem postLoop_singleline (env : Env) (s : State) (u : Bool)
    (heco : s.echoInput = true)
    (hsuf : endsWith s.buffer (_newlineSuffix s) = true)
    (halias : env.aliasMatch (s.buffer.take (s.buffer.length - (_newlineSuffix s).length))
        s.exeName = none) :
    (_handlePostCharInputLoop env s u).consumeArg = s.buffer ∧
      (_handlePostCharInputLoop env s u).lineCount = 1 ∧
      (_handlePostCharInputLoop env s u).state.multilinePending = s.multilinePending ∧
      (_handlePostCharInputLoop env s u).state.pendingInput =
        (if s.buffer.drop (min (env.consumeRet u s.buffer) s.buffer.length) ≠ [] then
          some (s.buffer.drop (min (env.consumeRet u s.buffer) s.buffer.length))
        else s.pendingInput) := by
  unfold _handlePostCharInputLoop
  dsimp only
  simp only [heco, hsuf, halias, if_true, ite_true]
  try dsimp only
  rw [if_neg (lt_irrefl 1)]
  refine ⟨trivial, trivial, ?_, ?_⟩ <;> (split <;> rfl)

/-- C8: in `_handlePostCharInputLoop`, when alias expansion reports
`lineCount > 1`, only the prefix of the expanded buffer up through the first
`'\n'` is handed to `Consume`, and the rest of the expanded buffer past the
consumed amount is saved as pending multi-line input; when `lineCount = 1`,
any tail `Consume` leaves unconsumed is saved as ordinary pending input. -/
theorem c8_theorem :
    (∀ (env : Env) (s : State) (u : Bool) (exp : List WChar) (lc j : Nat),
        s.echoInput = true →
        endsWith s.buffer (_newlineSuffix s) = true →
        env.aliasMatch (s.buffer.take (s.buffer.length - (_newlineSuffix s).length)) s.exeName =
            some (exp, lc) →
        exp ≠ [] → 1 < lc → findFrom exp UNICODE_LINEFEED 0 = some j →
        (_handlePostCharInputLoop env s u).consumeArg = exp.take (j + 1) ∧
          (_handlePostCharInputLoop env s u).state.buffer = exp ∧
          (_handlePostCharInputLoop env s u).state.multilinePending =
            some (exp.drop (min exp.length (_handlePostCharInputLoop env s u).amountConsumed))) ∧
    (∀ (env : Env) (s : State) (u : Bool),
        s.echoInput = true →
        endsWith s.buffer (_newlineSuffix s) = true →
        env.aliasMatch (s.buffer.take (s.buffer.length - (_newlineSuffix s).length)) s.exeName =
            none →
        (_handlePostCharInputLoop env s u).consumeArg = s.buffer ∧
          (_handlePostCharInputLoop env s u).lineCount = 1 ∧
          (_handlePostCharInputLoop env s u).state.multilinePending = s.multilinePending ∧
          (_handlePostCharInputLoop env s u).state.pendingInput =
            (if s.buffer.drop (min (env.consumeRet u s.buffer) s.buffer.length) ≠ [] then
              some (s.buffer.drop (min (env.consumeRet u s.buffer) s.buffer.length))
            else s.pendingInput)) :=
  ⟨fun env s u exp lc j h1 h2 h3 h4 h5 h6 =>
      postLoop_multiline env s u exp lc j h1 h2 h3 h4 h5 h6,
    fun env s u h1 h2 h3 => postLoop_singleline env s u h1 h2 h3⟩

/-- C8 witness: the spec's alias scenario (`test` → `"a\r\nb\r\n"`, reply
`"a\r\n"`, pending `"b\r\n"`) and a one-unit `Consume` over `"hi\r\n"`. -/
theorem c8_witness :
    ((_handlePostCharInputLoop env8 s8 true).consumeArg =
        ([97, 13, 10, 98, 13, 10] : List WChar).take (2 + 1) ∧
      (_handlePostCharInputLoop env8 s8 true).state.buffer = [97, 13, 10, 98, 13, 10] ∧
      (_handlePostCharInputLoop env8 s8 true).state.multilinePending =
        some (([97, 13, 10, 98, 13, 10] : List WChar).drop
          (min ([97, 13, 10, 98, 13, 10] : List WChar).length
            (_handlePostCharInputLoop env8 s8 true).amountConsumed))) ∧
    ((_handlePostCharInputLoop env82 s82 true).consumeArg = s82.buffer ∧
      (_handlePostCharInputLoop env82 s82 true).lineCount = 1 ∧
      (_handlePostCharInputLoop env82 s82 true).state.multilinePending = s82.multilinePending ∧
      (_handlePostCharInputLoop env82 s82 true).state.pendingInput =
        (if s82.buffer.drop (min (env82.consumeRet true s82.buffer) s82.buffer.length) ≠ [] then
          some (s82.buffer.drop (min (env82.consumeRet true s82.buffer) s82.buffer.length))
        else s82.pendingInput)) :=
  ⟨c8_theorem.1 env8 s8 true [97, 13, 10, 98, 13, 10] 2 2 rfl (by decide) rfl (by decide)
      (by decide) (by decide),
    c8_theorem.2 env82 s82 true rfl (by decide) rfl⟩
